import Mathlib

/-!
# Descriptor and planning layer: batch normalization (ncsp) and inner product

A shallow embedding of `src/cpu/ncsp_batch_normalization.hpp` and
`src/common/inner_product_pd.hpp`, followed by theorems about the scratchpad
bookings, the `init()` validation and the argument counts.

Conventions of the embedding.

* `size_t` is 64 bits wide and `int` 32 bits wide (the LP64 targets of the
  library). A `size_t` product is taken modulo `2 ^ 64`; the narrowing of a
  `dim_t` value into an `int` is taken modulo `2 ^ 32`, two's complement, and
  so is an `int` sum or product that leaves the range of `int`.
* Extents (`dim_t`) and the thread-pool width are natural numbers: a memory
  descriptor with a negative extent is not a descriptor of the library.
* A descriptor is a record; a member function that changes the descriptor
  returns the changed record.
* Products of extents in `dim_t` are taken exactly: signed overflow is
  undefined in C++ and needs a tensor of `2 ^ 63` elements.
* A failing `assert` ends the program when assertions are compiled in; a
  function that contains one returns an `Option`, `none` for that end.
-/

namespace dnnl
namespace impl

/-! ## Enumerations of `c_types_map.hpp` -/

/-- Element types (`data_type_t`). -/
inductive data_type_t where
  | undef | f16 | bf16 | f32 | s32 | s8 | u8
  deriving DecidableEq, Repr

/-- Propagation directions (`prop_kind_t`). -/
inductive prop_kind_t where
  | undef | forward_training | forward_inference
  | backward | backward_data | backward_weights | backward_bias
  deriving DecidableEq, Repr

/-- Status codes (`status_t`). -/
inductive status_t where
  | success | out_of_memory | invalid_arguments | unimplemented
  | iterator_ends | runtime_error | not_required
  deriving DecidableEq, Repr

/-- Layout tags (`format_tag_t`), the ones these sources name and their
neighbours of the plain family. -/
inductive format_tag_t where
  | undef | any | x | nc | cn | ncw | nwc | nchw | nhwc | chwn | ncdhw | ndhwc
  deriving DecidableEq, Repr

/-- Layout kinds (`format_kind_t`). -/
inductive format_kind_t where
  | undef | any | blocked | wino | rnn_packed
  deriving DecidableEq, Repr

/-- Instruction-set extensions the capability query knows (`cpu_isa_t`). -/
inductive cpu_isa_t where
  | sse41 | avx | avx2 | avx512_common | avx512_core | avx512_core_vnni
  | avx512_mic | avx512_mic_4ops | avx512_core_bf16
  deriving DecidableEq, Repr

/-- Memory descriptor: rank, logical extents, padded extents, element type and
layout, the fields of the data model that the two sources read. -/
structure memory_desc_t where
  ndims : Nat
  dims : List Nat
  padded_dims : List Nat
  data_type : data_type_t
  format_kind : format_kind_t
  format_tag : format_tag_t
  deriving DecidableEq, Repr

/-- The zero descriptor (`glob_zero_md`): a zero-initialised `memory_desc_t`. -/
def glob_zero_md : memory_desc_t :=
  { ndims := 0, dims := [], padded_dims := [],
    data_type := data_type_t.undef, format_kind := format_kind_t.undef,
    format_tag := format_tag_t.undef }

/-! ## Machine integers -/

/-- Number of values of a `size_t`. -/
def SIZE_MOD : Nat := 2 ^ 64

/-- Conversion of a (mathematical) integer to `size_t`: reduction modulo `2 ^ 64`. -/
def to_size_t (v : Int) : Nat := (v % (SIZE_MOD : Int)).toNat

/-- Product of two `size_t` values. -/
def size_t_mul (a b : Nat) : Nat := (a * b) % SIZE_MOD

/-- Narrowing of an integer into a 32-bit `int` (two's complement). -/
def to_int (v : Int) : Int := (v + 2 ^ 31) % 2 ^ 32 - 2 ^ 31

/-- The macro `IMPLICATION(cause, effect)` of `utils.hpp`: `!cause || effect`. -/
def IMPLICATION (cause effect : Bool) : Bool := !cause || effect

namespace utils

/-- Modelled from the spec: `utils::div_up` is defined in `utils.hpp`, outside
these sources; on two `int`s it is the quotient rounded up, computed in `int`
arithmetic with the truncating division of C++ as `(a + b - 1) / b`. -/
def div_up (a b : Int) : Int := (to_int (a + b - 1)).tdiv b

/-- Modelled from the spec: `utils::rnd_up` is defined in `utils.hpp`, outside
these sources; on two `int`s `round_up(a, b)` is `div_up(a, b) * b` in `int`
arithmetic, for `0 <= a` with `a + b - 1` in the range of `int` the least
multiple of `b` that is `>= a`. -/
def rnd_up (a b : Int) : Int := to_int (div_up a b * b)

/-- Modelled from the spec: `utils::one_of` is defined in `utils.hpp`, outside
these sources; the value is one of the listed ones. -/
def one_of {α : Type} [DecidableEq α] (val : α) (items : List α) : Bool :=
  items.any (fun item => decide (val = item))

/-- Modelled from the spec: `utils::everyone_is` is defined in `utils.hpp`,
outside these sources; every listed item equals the value. -/
def everyone_is {α : Type} [DecidableEq α] (val : α) (items : List α) : Bool :=
  items.all (fun item => decide (val = item))

end utils

/-- The `round_up(a, b)` of the specification, on natural numbers: the least
multiple of `b` that is `>= a` (see `round_up_least`). -/
def round_up (a b : Nat) : Nat := (a + b - 1) / b * b

/-! ## Scratchpad registry -/

namespace memory_tracking

/-- Scratchpad keys of the batch-normalization family (`memory_tracking::names`). -/
inductive names where
  | key_bnorm_reduction | key_bnorm_tmp_mean | key_bnorm_tmp_var
  | key_bnorm_bf16cvt | key_bnorm_tmp_diff_ss
  deriving DecidableEq, Repr

/-- Modelled from the spec: the registry is defined in `memory_tracking.hpp`,
outside these sources; it is the key to byte-size record of the `book` calls,
kept here in the order of the calls. -/
abbrev registry_t := List (names × Nat)

/-- Modelled from the spec: `registrar_t::book(key, size)` records the byte
size under the key. -/
def book (scratchpad : registry_t) (key : names) (size : Nat) : registry_t :=
  scratchpad ++ [(key, size)]

/-- Byte size recorded under a key, `none` when the key was never booked. -/
def booked_size : registry_t → names → Option Nat
  | [], _ => none
  | (k, s) :: rest, key => if k = key then some s else booked_size rest key

/-- Whether a key was booked. -/
def is_booked (scratchpad : registry_t) (key : names) : Bool :=
  (booked_size scratchpad key).isSome

end memory_tracking

/-- What the two external queries answer on the executing machine:
`mayiuse(isa)` and `dnnl_get_max_threads()`. -/
structure cpu_t where
  mayiuse : cpu_isa_t → Bool
  dnnl_get_max_threads : Nat

/-- Attribute object: the two facts this layer reads from it,
`attr()->has_default_values()` and whether its post-ops are exactly the fused
activation (`with_relu_post_op()`). -/
structure primitive_attr_t where
  has_default_values : Bool
  relu_post_op : Bool
  deriving DecidableEq, Repr

namespace cpu

/-- The paired forward descriptor as a backward descriptor sees it
(`hint_fwd_pd_`): its workspace descriptor, when it has one. -/
structure hint_fwd_pd_t where
  workspace_md : Option memory_desc_t
  deriving DecidableEq, Repr

/-- Batch-normalization descriptor (`cpu_batch_normalization_fwd_pd_t` and
`cpu_batch_normalization_bwd_pd_t`). The base classes are outside these
sources, so the record holds what their accessors return (`is_fwd()`,
`C()`, `src_md()`, ...) next to the two parts `init()` writes: the workspace
descriptor `ws_md_` and the scratchpad registry. -/
structure pd_t where
  prop_kind : prop_kind_t
  is_fwd : Bool
  is_bwd : Bool
  is_training : Bool
  has_zero_dim_memory : Bool
  stats_is_src : Bool
  use_global_stats : Bool
  use_scaleshift : Bool
  fuse_norm_relu : Bool
  ndims : Nat
  C : Nat
  D : Nat
  H : Nat
  W : Nat
  src_md : memory_desc_t
  diff_src_md : memory_desc_t
  weights_md : memory_desc_t
  diff_weights_md : memory_desc_t
  attr : primitive_attr_t
  hint_fwd_pd_ : Option hint_fwd_pd_t
  ws_md_ : Option memory_desc_t
  scratchpad_registry : memory_tracking.registry_t
  deriving DecidableEq, Repr

/-- The accessor `with_relu_post_op()` of the base class: the post-ops of the
attribute are exactly the fused activation. -/
def pd_t.with_relu_post_op (pd : pd_t) : Bool := pd.attr.relu_post_op

/-- Modelled from the spec: `memory_desc_matches_one_of_tag` is defined outside
these sources; it tests the layout of the descriptor against the accepted tags. -/
def memory_desc_matches_one_of_tag (md : memory_desc_t) (tags : List format_tag_t) : Bool :=
  tags.contains md.format_tag

/-- Number of elements of a descriptor, padding included. -/
def nelems_padded (md : memory_desc_t) : Nat := md.padded_dims.foldl (· * ·) 1

/-- Modelled from the spec: the workspace `init_default_ws(bits_per_element)`
builds is defined in the base class, outside these sources; it is a flat byte
tensor with `bits_per_element` bits for every element of the data tensor. -/
def pd_t.default_ws (pd : pd_t) (bits_per_element : Nat) : memory_desc_t :=
  let ws_sz := (nelems_padded pd.src_md * bits_per_element + 8 - 1) / 8
  { ndims := 1, dims := [ws_sz], padded_dims := [ws_sz],
    data_type := data_type_t.u8, format_kind := format_kind_t.blocked,
    format_tag := format_tag_t.x }

/-- Modelled from the spec: `init_default_ws` sets the workspace descriptor of
the descriptor to the default workspace. -/
def pd_t.init_default_ws (pd : pd_t) (bits_per_element : Nat) : pd_t :=
  { pd with ws_md_ := some (pd.default_ws bits_per_element) }

/-- Modelled from the spec: `compare_ws(hint_fwd_pd_)` is defined in the base
class, outside these sources; a descriptor that has a workspace passes when a
paired forward descriptor exists and its workspace is identical (shape, type
and layout), a descriptor without workspace passes. -/
def pd_t.compare_ws (pd : pd_t) : Bool :=
  match pd.ws_md_ with
  | none => true
  | some ws =>
    match pd.hint_fwd_pd_ with
    | none => false
    | some fwd => decide (fwd.workspace_md = some ws)

/-- Workspace of the paired forward descriptor, `none` when there is no paired
descriptor or it has no workspace. -/
def pd_t.paired_fwd_workspace (pd : pd_t) : Option memory_desc_t :=
  pd.hint_fwd_pd_.bind (fun fwd => fwd.workspace_md)

/-- The accumulation type `acc_data_t` is `float`: `sizeof(acc_data_t)`. -/
def sizeof_acc_data_t : Nat := 4

/-! ## Forward descriptor, `ncsp_batch_normalization_fwd_t<d_type>::pd_t` -/

namespace ncsp_batch_normalization_fwd_t

open memory_tracking memory_tracking.names

/-- The private `init_scratchpad()` of the forward descriptor. -/
def init_scratchpad (d_type : data_type_t) (env : cpu_t) (pd : pd_t) : pd_t :=
  let scratchpad := pd.scratchpad_registry
  let scratchpad :=
    if !pd.stats_is_src then
      let scratchpad := book scratchpad key_bnorm_reduction
        (size_t_mul (size_t_mul sizeof_acc_data_t pd.C) env.dnnl_get_max_threads)
      if !pd.is_training then
        let scratchpad := book scratchpad key_bnorm_tmp_mean
          (size_t_mul sizeof_acc_data_t pd.C)
        book scratchpad key_bnorm_tmp_var (size_t_mul sizeof_acc_data_t pd.C)
      else scratchpad
    else scratchpad
  let scratchpad :=
    if d_type = data_type_t.bf16 then
      let simd_w : Int := 16
      let has_spatial : Bool := utils.one_of pd.ndims [4, 5]
      -- `const int SP`: the `dim_t` product is narrowed into an `int`
      let SP : Int := if has_spatial then to_int ((pd.D * pd.H * pd.W : Nat) : Int) else 1
      let nbufs : Int := 2
      let bf16cvt_buf_sz : Nat :=
        size_t_mul
          (size_t_mul (size_t_mul sizeof_acc_data_t (to_size_t nbufs))
            env.dnnl_get_max_threads)
          (to_size_t (utils.rnd_up SP simd_w))
      book scratchpad key_bnorm_bf16cvt bf16cvt_buf_sz
    else scratchpad
  { pd with scratchpad_registry := scratchpad }

/-- The conjunction `ok` that `init()` computes. -/
def init_ok (d_type : data_type_t) (env : cpu_t) (pd : pd_t) : Bool :=
  true && pd.is_fwd && !pd.has_zero_dim_memory
    && decide (pd.src_md.data_type = d_type)
    && IMPLICATION (decide (d_type = data_type_t.bf16)) (env.mayiuse cpu_isa_t.avx512_core)
    && IMPLICATION pd.use_scaleshift (decide (pd.weights_md.data_type = data_type_t.f32))
    && memory_desc_matches_one_of_tag pd.src_md
        [format_tag_t.ncdhw, format_tag_t.nchw, format_tag_t.nc]
    && (pd.attr.has_default_values || pd.with_relu_post_op)

/-- The forward `init()`: the returned status and the descriptor it leaves. -/
def init (d_type : data_type_t) (env : cpu_t) (pd : pd_t) : status_t × pd_t :=
  let ok := init_ok d_type env pd
  if !ok then (status_t.unimplemented, pd)
  else
    let pd := if pd.is_training && pd.fuse_norm_relu then pd.init_default_ws 8 else pd
    let pd := init_scratchpad d_type env pd
    (status_t.success, pd)

end ncsp_batch_normalization_fwd_t

/-! ## Backward descriptor, `ncsp_batch_normalization_bwd_t<d_type>::pd_t` -/

namespace ncsp_batch_normalization_bwd_t

open memory_tracking memory_tracking.names

/-- The private `init_scratchpad()` of the backward descriptor. -/
def init_scratchpad (d_type : data_type_t) (env : cpu_t) (pd : pd_t) : pd_t :=
  let scratchpad := pd.scratchpad_registry
  let scratchpad := book scratchpad key_bnorm_reduction
    (size_t_mul (size_t_mul (size_t_mul sizeof_acc_data_t 2) pd.C) env.dnnl_get_max_threads)
  let scratchpad :=
    if !(pd.use_scaleshift && decide (pd.prop_kind = prop_kind_t.backward)) then
      book scratchpad key_bnorm_tmp_diff_ss
        (size_t_mul (size_t_mul sizeof_acc_data_t 2) pd.C)
    else scratchpad
  let scratchpad :=
    if d_type = data_type_t.bf16 then
      let simd_w : Int := 16
      let has_spatial : Bool := utils.one_of pd.ndims [4, 5]
      -- `const int SP`: the `dim_t` product is narrowed into an `int`
      let SP : Int := if has_spatial then to_int ((pd.D * pd.H * pd.W : Nat) : Int) else 1
      let nbufs : Int := 2 + (if !pd.use_global_stats then 1 else 0)
      let bf16cvt_buf_sz : Nat :=
        size_t_mul
          (size_t_mul (size_t_mul sizeof_acc_data_t (to_size_t nbufs))
            env.dnnl_get_max_threads)
          (to_size_t (utils.rnd_up SP simd_w))
      book scratchpad key_bnorm_bf16cvt bf16cvt_buf_sz
    else scratchpad
  { pd with scratchpad_registry := scratchpad }

/-- The conjuncts of `ok` in `init()` that come before the attribute test. -/
def init_ok_before_attr (d_type : data_type_t) (env : cpu_t) (pd : pd_t) : Bool :=
  true && pd.is_bwd && !pd.has_zero_dim_memory
    && utils.everyone_is d_type [pd.src_md.data_type, pd.diff_src_md.data_type]
    && IMPLICATION (decide (d_type = data_type_t.bf16)) (env.mayiuse cpu_isa_t.avx512_core)
    && IMPLICATION pd.use_scaleshift
        (utils.everyone_is data_type_t.f32
          [pd.weights_md.data_type, pd.diff_weights_md.data_type])
    && memory_desc_matches_one_of_tag pd.src_md
        [format_tag_t.ncdhw, format_tag_t.nchw, format_tag_t.nc]
    && memory_desc_matches_one_of_tag pd.diff_src_md
        [format_tag_t.ncdhw, format_tag_t.nchw, format_tag_t.nc]

/-- The conjunction `ok` that `init()` computes: the last conjunct is
`attr()->has_default_values()`. -/
def init_ok (d_type : data_type_t) (env : cpu_t) (pd : pd_t) : Bool :=
  init_ok_before_attr d_type env pd && pd.attr.has_default_values

/-- The backward `init()`: the returned status and the descriptor it leaves. -/
def init (d_type : data_type_t) (env : cpu_t) (pd : pd_t) : status_t × pd_t :=
  let ok := init_ok d_type env pd
  if !ok then (status_t.unimplemented, pd)
  else
    if pd.fuse_norm_relu then
      let pd := pd.init_default_ws 8
      if !pd.compare_ws then (status_t.unimplemented, pd)
      else
        let pd := init_scratchpad d_type env pd
        (status_t.success, pd)
    else
      let pd := init_scratchpad d_type env pd
      (status_t.success, pd)

end ncsp_batch_normalization_bwd_t

end cpu

/-! ## Inner product, `inner_product_pd.hpp` -/

/-- Operator description of the inner product (`inner_product_desc_t`). -/
structure inner_product_desc_t where
  prop_kind : prop_kind_t
  src_desc : memory_desc_t
  diff_src_desc : memory_desc_t
  weights_desc : memory_desc_t
  diff_weights_desc : memory_desc_t
  bias_desc : memory_desc_t
  diff_bias_desc : memory_desc_t
  dst_desc : memory_desc_t
  diff_dst_desc : memory_desc_t
  accum_data_type : data_type_t
  deriving DecidableEq, Repr

/-- Modelled from the spec: `ip_prop_invariant_bia_d` is declared in
`inner_product_pd.hpp` and defined outside these sources; the backward-weights
direction reads the diff-bias descriptor in place of the bias descriptor. -/
def ip_prop_invariant_bia_d (desc : inner_product_desc_t) : memory_desc_t :=
  if desc.prop_kind = prop_kind_t.backward_weights then desc.diff_bias_desc
  else desc.bias_desc

/-- Modelled from the spec: `memory_desc_wrapper::is_zero` is defined outside
these sources; it recognises the zero (absent) descriptor, the one of rank 0. -/
def memory_desc_t.is_zero (md : memory_desc_t) : Bool := decide (md.ndims = 0)

/-- The base descriptor `inner_product_pd_t`: the stored operator description. -/
structure inner_product_pd_t where
  desc_ : inner_product_desc_t
  deriving DecidableEq, Repr

/-- The member `with_bias()`. -/
def inner_product_pd_t.with_bias (pd : inner_product_pd_t) : Bool :=
  !(ip_prop_invariant_bia_d pd.desc_).is_zero

/-- The forward descriptor `inner_product_fwd_pd_t`. -/
structure inner_product_fwd_pd_t extends inner_product_pd_t where
  src_md_ : memory_desc_t
  weights_md_ : memory_desc_t
  bias_md_ : memory_desc_t
  dst_md_ : memory_desc_t
  deriving DecidableEq, Repr

namespace inner_product_fwd_pd_t

/-- The constructor: the memory descriptors are copied from the description. -/
def create (adesc : inner_product_desc_t) : inner_product_fwd_pd_t :=
  { desc_ := adesc, src_md_ := adesc.src_desc, weights_md_ := adesc.weights_desc,
    bias_md_ := adesc.bias_desc, dst_md_ := adesc.dst_desc }

/-- The member `n_inputs()`: `2 + with_bias()`. -/
def n_inputs (pd : inner_product_fwd_pd_t) : Int :=
  2 + (if pd.with_bias then 1 else 0)

/-- The member `n_outputs()`. -/
def n_outputs (_pd : inner_product_fwd_pd_t) : Int := 1

end inner_product_fwd_pd_t

/-! ### Argument slots and the base of the descriptors -/

/-- Argument slot identifiers (the `DNNL_ARG_*` macros), the closed set of
roles of the data model. -/
inductive arg_t where
  | DNNL_ARG_SRC | DNNL_ARG_WEIGHTS | DNNL_ARG_BIAS | DNNL_ARG_DST
  | DNNL_ARG_DIFF_SRC | DNNL_ARG_DIFF_WEIGHTS | DNNL_ARG_DIFF_BIAS | DNNL_ARG_DIFF_DST
  deriving DecidableEq, Repr

/-- Role of an argument slot (`arg_usage_t`). -/
inductive arg_usage_t where
  | unused | input | output
  deriving DecidableEq, Repr

/-- The eight argument slots. -/
def arg_t.all : List arg_t :=
  [arg_t.DNNL_ARG_SRC, arg_t.DNNL_ARG_WEIGHTS, arg_t.DNNL_ARG_BIAS, arg_t.DNNL_ARG_DST,
   arg_t.DNNL_ARG_DIFF_SRC, arg_t.DNNL_ARG_DIFF_WEIGHTS, arg_t.DNNL_ARG_DIFF_BIAS,
   arg_t.DNNL_ARG_DIFF_DST]

/-- Number of argument slots that a role assignment gives the role `u`. -/
def count_usage (usage : arg_t → arg_usage_t) (u : arg_usage_t) : Nat :=
  (arg_t.all.filter (fun arg => decide (usage arg = u))).length

namespace primitive_desc_t

/-- Modelled from the spec: `primitive_desc_t::arg_usage` is defined outside
these sources; a data slot that the variant does not claim is unused. -/
def arg_usage (_arg : arg_t) : arg_usage_t := arg_usage_t.unused

end primitive_desc_t

/-- Query kinds (`query_t`), the ones next to `inner_product_d`. -/
inductive query_t where
  | undef | engine | primitive_kind | op_d | convolution_d | batch_normalization_d
  | inner_product_d | src_md | weights_md | dst_md | workspace_md | scratchpad_md
  deriving DecidableEq, Repr

/-- Modelled from the spec: `ip_prop_invariant_src_d` is declared in
`inner_product_pd.hpp` and defined outside these sources; the backward-data
direction reads the diff-source descriptor in place of the source descriptor. -/
def ip_prop_invariant_src_d (desc : inner_product_desc_t) : memory_desc_t :=
  if desc.prop_kind = prop_kind_t.backward_data then desc.diff_src_desc
  else desc.src_desc

/-- Modelled from the spec: `ip_prop_invariant_wei_d` is declared in
`inner_product_pd.hpp` and defined outside these sources; the backward-weights
direction reads the diff-weights descriptor in place of the weights descriptor. -/
def ip_prop_invariant_wei_d (desc : inner_product_desc_t) : memory_desc_t :=
  if desc.prop_kind = prop_kind_t.backward_weights then desc.diff_weights_desc
  else desc.weights_desc

/-- Modelled from the spec: `ip_prop_invariant_dst_d` is declared in
`inner_product_pd.hpp` and defined outside these sources; the forward directions
read the destination descriptor, the backward directions (whose variants hold a
diff-destination and no destination) the diff-destination descriptor. -/
def ip_prop_invariant_dst_d (desc : inner_product_desc_t) : memory_desc_t :=
  if desc.prop_kind = prop_kind_t.forward_training
      ∨ desc.prop_kind = prop_kind_t.forward_inference then desc.dst_desc
  else desc.diff_dst_desc

/-- The entry `dims[i]` of an extent array. -/
def dims_at (dims : List Nat) (i : Nat) : Nat := dims.getD i 0

namespace utils

/-- Modelled from the spec: `utils::array_product(arr, size)` is defined in
`utils.hpp`, outside these sources; it is the product of the first `size`
entries of the array (the total element count along a range of axes). -/
def array_product (arr : List Nat) (size : Nat) : Nat :=
  (arr.take size).foldl (· * ·) 1

end utils

/-- Modelled from the spec: `memory_desc_wrapper::has_zero_dim` is defined
outside these sources; the descriptor has a zero-sized axis, one of its `ndims`
logical extents is zero. -/
def memory_desc_t.has_zero_dim (md : memory_desc_t) : Bool :=
  (md.dims.take md.ndims).any (fun d => decide (d = 0))

/-- Modelled from the spec: `memory_desc_wrapper::is_blocking_desc` is defined
outside these sources; the descriptor is in a blocked layout. -/
def memory_desc_t.is_blocking_desc (md : memory_desc_t) : Bool :=
  decide (md.format_kind = format_kind_t.blocked)

namespace inner_product_pd_t

/-- The member `desc()`. -/
def desc (pd : inner_product_pd_t) : inner_product_desc_t := pd.desc_

/-- The member `query(what, idx, result)`: the status, and the description
that the case `query::inner_product_d` hands out through `result`. Every other
kind goes to `primitive_desc_t::query`, which is outside these sources and is
taken as the parameter `base_query`. -/
def query (pd : inner_product_pd_t) (base_query : query_t → Int → status_t)
    (what : query_t) (idx : Int) : status_t × Option inner_product_desc_t :=
  match what with
  | query_t.inner_product_d => (status_t.success, some pd.desc)
  | _ => (base_query what idx, none)

/-- The member `ndims()`. -/
def ndims (pd : inner_product_pd_t) : Nat := (ip_prop_invariant_src_d pd.desc_).ndims

/-- The member `MB()`. -/
def MB (pd : inner_product_pd_t) : Nat := dims_at (ip_prop_invariant_src_d pd.desc_).dims 0

/-- The member `IC()`. -/
def IC (pd : inner_product_pd_t) : Nat := dims_at (ip_prop_invariant_src_d pd.desc_).dims 1

/-- The member `OC()`. -/
def OC (pd : inner_product_pd_t) : Nat := dims_at (ip_prop_invariant_dst_d pd.desc_).dims 1

/-- The member `ID()`. -/
def ID (pd : inner_product_pd_t) : Nat :=
  if pd.ndims ≥ 5 then dims_at (ip_prop_invariant_src_d pd.desc_).dims (pd.ndims - 3) else 1

/-- The member `IH()`. -/
def IH (pd : inner_product_pd_t) : Nat :=
  if pd.ndims ≥ 4 then dims_at (ip_prop_invariant_src_d pd.desc_).dims (pd.ndims - 2) else 1

/-- The member `IW()`. -/
def IW (pd : inner_product_pd_t) : Nat :=
  if pd.ndims ≥ 3 then dims_at (ip_prop_invariant_src_d pd.desc_).dims (pd.ndims - 1) else 1

/-- The member `IC_total()`: the product of `ndims() - 1` extents from
`dims[1]` on; the count `ndims() - 1` is an `int` turned into a `size_t`. -/
def IC_total (pd : inner_product_pd_t) : Nat :=
  utils.array_product ((ip_prop_invariant_src_d pd.desc_).dims.drop 1)
    (to_size_t ((pd.ndims : Int) - 1))

/-- The member `IC_total_padded()`. The two descriptors are what the virtual
accessors `src_md()` and `diff_src_md()` of the variant return; `assertions`
says whether `assert` is compiled in (no `NDEBUG`). The result is `none` when
the assertion fails and ends the program, the returned `dim_t` otherwise. -/
def IC_total_padded (pd : inner_product_pd_t) (assertions : Bool)
    (src_md diff_src_md : memory_desc_t) : Option Int :=
  let src_d := if pd.desc.prop_kind = prop_kind_t.backward_data then diff_src_md else src_md
  if assertions && !src_d.is_blocking_desc then none
  else if !src_d.is_blocking_desc then some (-1)
  else some ((utils.array_product (src_d.padded_dims.drop 1)
    (to_size_t ((pd.ndims : Int) - 1)) : Nat) : Int)

/-- The member `has_zero_dim_memory()`. -/
def has_zero_dim_memory (pd : inner_product_pd_t) : Bool :=
  let s_d := ip_prop_invariant_src_d pd.desc_
  let d_d := ip_prop_invariant_dst_d pd.desc_
  s_d.has_zero_dim || d_d.has_zero_dim

/-- The member `is_fwd()`. -/
def is_fwd (pd : inner_product_pd_t) : Bool :=
  utils.one_of pd.desc_.prop_kind
    [prop_kind_t.forward_training, prop_kind_t.forward_inference]

/-- The private member `_src_md()`. -/
def _src_md (pd : inner_product_pd_t) : memory_desc_t := ip_prop_invariant_src_d pd.desc_

/-- The private member `_wei_md()`. -/
def _wei_md (pd : inner_product_pd_t) : memory_desc_t := ip_prop_invariant_wei_d pd.desc_

/-- The private member `_bia_md()`. -/
def _bia_md (pd : inner_product_pd_t) : memory_desc_t := ip_prop_invariant_bia_d pd.desc_

/-- The private member `_dst_md()`. -/
def _dst_md (pd : inner_product_pd_t) : memory_desc_t := ip_prop_invariant_dst_d pd.desc_

/-- The protected member `expect_data_types(src_dt, wei_dt, bia_dt, dst_dt, acc_dt)`. -/
def expect_data_types (pd : inner_product_pd_t)
    (src_dt wei_dt bia_dt dst_dt acc_dt : data_type_t) : Bool :=
  let ok := true
    && (decide (src_dt = data_type_t.undef) || decide (pd._src_md.data_type = src_dt))
    && (decide (wei_dt = data_type_t.undef) || decide (pd._wei_md.data_type = wei_dt))
    && (decide (dst_dt = data_type_t.undef) || decide (pd._dst_md.data_type = dst_dt))
    && (decide (acc_dt = data_type_t.undef) || decide (pd.desc_.accum_data_type = acc_dt))
  if pd.with_bias && decide (bia_dt ≠ data_type_t.undef) then
    ok && decide (pd._bia_md.data_type = bia_dt)
  else ok

end inner_product_pd_t

/-- What a memory-descriptor accessor returns: the address of one of the
members of the descriptor, or the address of the shared `glob_zero_md`. -/
inductive md_ref_t where
  | src_md_ | weights_md_ | bias_md_ | dst_md_
  | diff_src_md_ | diff_weights_md_ | diff_bias_md_ | diff_dst_md_
  | glob_zero_md
  deriving DecidableEq, Repr

namespace inner_product_fwd_pd_t

/-- The member `arg_usage(arg)`. -/
def arg_usage (pd : inner_product_fwd_pd_t) (arg : arg_t) : arg_usage_t :=
  if utils.one_of arg [arg_t.DNNL_ARG_SRC, arg_t.DNNL_ARG_WEIGHTS] then arg_usage_t.input
  else if decide (arg = arg_t.DNNL_ARG_BIAS) && pd.with_bias then arg_usage_t.input
  else if arg = arg_t.DNNL_ARG_DST then arg_usage_t.output
  else primitive_desc_t.arg_usage arg

/-- The member `src_md(index)`. -/
def src_md (_pd : inner_product_fwd_pd_t) (index : Int) : md_ref_t :=
  if index = 0 then md_ref_t.src_md_ else md_ref_t.glob_zero_md

/-- The member `dst_md(index)`. -/
def dst_md (_pd : inner_product_fwd_pd_t) (index : Int) : md_ref_t :=
  if index = 0 then md_ref_t.dst_md_ else md_ref_t.glob_zero_md

/-- The member `weights_md(index)`. -/
def weights_md (pd : inner_product_fwd_pd_t) (index : Int) : md_ref_t :=
  if index = 0 then md_ref_t.weights_md_
  else if decide (index = 1) && pd.with_bias then md_ref_t.bias_md_
  else md_ref_t.glob_zero_md

/-- The descriptor behind a returned address. -/
def deref (pd : inner_product_fwd_pd_t) : md_ref_t → memory_desc_t
  | md_ref_t.src_md_ => pd.src_md_
  | md_ref_t.weights_md_ => pd.weights_md_
  | md_ref_t.bias_md_ => pd.bias_md_
  | md_ref_t.dst_md_ => pd.dst_md_
  | _ => glob_zero_md

end inner_product_fwd_pd_t

/-- The backward-data descriptor `inner_product_bwd_data_pd_t`; the paired
forward descriptor `hint_fwd_pd_` of the base is kept here. -/
structure inner_product_bwd_data_pd_t extends inner_product_pd_t where
  hint_fwd_pd_ : Option inner_product_fwd_pd_t
  diff_src_md_ : memory_desc_t
  weights_md_ : memory_desc_t
  diff_dst_md_ : memory_desc_t
  deriving DecidableEq, Repr

namespace inner_product_bwd_data_pd_t

/-- The constructor: the memory descriptors are copied from the description. -/
def create (adesc : inner_product_desc_t) (hint_fwd_pd : Option inner_product_fwd_pd_t) :
    inner_product_bwd_data_pd_t :=
  { desc_ := adesc, hint_fwd_pd_ := hint_fwd_pd, diff_src_md_ := adesc.diff_src_desc,
    weights_md_ := adesc.weights_desc, diff_dst_md_ := adesc.diff_dst_desc }

/-- The member `arg_usage(arg)`. -/
def arg_usage (_pd : inner_product_bwd_data_pd_t) (arg : arg_t) : arg_usage_t :=
  if utils.one_of arg [arg_t.DNNL_ARG_WEIGHTS, arg_t.DNNL_ARG_DIFF_DST] then arg_usage_t.input
  else if arg = arg_t.DNNL_ARG_DIFF_SRC then arg_usage_t.output
  else primitive_desc_t.arg_usage arg

/-- The member `diff_src_md(index)`. -/
def diff_src_md (_pd : inner_product_bwd_data_pd_t) (index : Int) : md_ref_t :=
  if index = 0 then md_ref_t.diff_src_md_ else md_ref_t.glob_zero_md

/-- The member `diff_dst_md(index)`. -/
def diff_dst_md (_pd : inner_product_bwd_data_pd_t) (index : Int) : md_ref_t :=
  if index = 0 then md_ref_t.diff_dst_md_ else md_ref_t.glob_zero_md

/-- The member `weights_md(index)`. -/
def weights_md (_pd : inner_product_bwd_data_pd_t) (index : Int) : md_ref_t :=
  if index = 0 then md_ref_t.weights_md_ else md_ref_t.glob_zero_md

/-- The member `n_inputs()`. -/
def n_inputs (_pd : inner_product_bwd_data_pd_t) : Int := 2

/-- The member `n_outputs()`. -/
def n_outputs (_pd : inner_product_bwd_data_pd_t) : Int := 1

end inner_product_bwd_data_pd_t

/-- The backward-weights descriptor `inner_product_bwd_weights_pd_t`; the
paired forward descriptor `hint_fwd_pd_` of the base is kept here. -/
structure inner_product_bwd_weights_pd_t extends inner_product_pd_t where
  hint_fwd_pd_ : Option inner_product_fwd_pd_t
  src_md_ : memory_desc_t
  diff_weights_md_ : memory_desc_t
  diff_bias_md_ : memory_desc_t
  diff_dst_md_ : memory_desc_t
  deriving DecidableEq, Repr

namespace inner_product_bwd_weights_pd_t

/-- The constructor: the memory descriptors are copied from the description. -/
def create (adesc : inner_product_desc_t) (hint_fwd_pd : Option inner_product_fwd_pd_t) :
    inner_product_bwd_weights_pd_t :=
  { desc_ := adesc, hint_fwd_pd_ := hint_fwd_pd, src_md_ := adesc.src_desc,
    diff_weights_md_ := adesc.diff_weights_desc, diff_bias_md_ := adesc.diff_bias_desc,
    diff_dst_md_ := adesc.diff_dst_desc }

/-- The member `arg_usage(arg)`. -/
def arg_usage (pd : inner_product_bwd_weights_pd_t) (arg : arg_t) : arg_usage_t :=
  if utils.one_of arg [arg_t.DNNL_ARG_SRC, arg_t.DNNL_ARG_DIFF_DST] then arg_usage_t.input
  else if arg = arg_t.DNNL_ARG_DIFF_WEIGHTS then arg_usage_t.output
  else if decide (arg = arg_t.DNNL_ARG_DIFF_BIAS) && pd.with_bias then arg_usage_t.output
  else primitive_desc_t.arg_usage arg

/-- The member `src_md(index)`. -/
def src_md (_pd : inner_product_bwd_weights_pd_t) (index : Int) : md_ref_t :=
  if index = 0 then md_ref_t.src_md_ else md_ref_t.glob_zero_md

/-- The member `diff_dst_md(index)`. -/
def diff_dst_md (_pd : inner_product_bwd_weights_pd_t) (index : Int) : md_ref_t :=
  if index = 0 then md_ref_t.diff_dst_md_ else md_ref_t.glob_zero_md

/-- The member `diff_weights_md(index)`. -/
def diff_weights_md (pd : inner_product_bwd_weights_pd_t) (index : Int) : md_ref_t :=
  if index = 0 then md_ref_t.diff_weights_md_
  else if decide (index = 1) && pd.with_bias then md_ref_t.diff_bias_md_
  else md_ref_t.glob_zero_md

/-- The member `n_inputs()`. -/
def n_inputs (_pd : inner_product_bwd_weights_pd_t) : Int := 2

/-- The member `n_outputs()`: `1 + with_bias()`. -/
def n_outputs (pd : inner_product_bwd_weights_pd_t) : Int :=
  1 + (if pd.with_bias then 1 else 0)

end inner_product_bwd_weights_pd_t

/-! ## Concrete descriptors -/

namespace sample

/-- A dense descriptor without padding. -/
def plain_md (dt : data_type_t) (tag : format_tag_t) (dims : List Nat) : memory_desc_t :=
  { ndims := dims.length, dims := dims, padded_dims := dims, data_type := dt,
    format_kind := format_kind_t.blocked, format_tag := tag }

/-- A machine with every extension and eight threads. -/
def eight_threads : cpu_t := { mayiuse := fun _ => true, dnnl_get_max_threads := 8 }

/-- A machine with every extension and one thread. -/
def one_thread : cpu_t := { mayiuse := fun _ => true, dnnl_get_max_threads := 1 }

/-- A machine that stops at avx2, with eight threads. -/
def avx2_only : cpu_t :=
  { mayiuse := fun isa => decide (isa = cpu_isa_t.sse41 ∨ isa = cpu_isa_t.avx ∨ isa = cpu_isa_t.avx2),
    dnnl_get_max_threads := 8 }

/-- Forward inference on a `2 x 64 x 7 x 7` tensor, `nchw`, f32, no flags. -/
def fwd_f32 : cpu.pd_t :=
  { prop_kind := prop_kind_t.forward_inference, is_fwd := true, is_bwd := false,
    is_training := false, has_zero_dim_memory := false, stats_is_src := false,
    use_global_stats := false, use_scaleshift := false, fuse_norm_relu := false,
    ndims := 4, C := 64, D := 1, H := 7, W := 7,
    src_md := plain_md data_type_t.f32 format_tag_t.nchw [2, 64, 7, 7],
    diff_src_md := glob_zero_md, weights_md := glob_zero_md, diff_weights_md := glob_zero_md,
    attr := { has_default_values := true, relu_post_op := false },
    hint_fwd_pd_ := none, ws_md_ := none, scratchpad_registry := [] }

/-- Forward inference on a `1 x 1 x 16 x 268435457` tensor, `nchw`, bf16: the
spatial extent is `2 ^ 32 + 16`. -/
def fwd_bf16_wide : cpu.pd_t :=
  { fwd_f32 with
    C := 1, H := 16, W := 268435457,
    src_md := plain_md data_type_t.bf16 format_tag_t.nchw [1, 1, 16, 268435457] }

/-- The combined backward direction on a `2 x 64 x 7 x 7` tensor, `nchw`, f32,
with scale-shift. -/
def bwd_f32 : cpu.pd_t :=
  { prop_kind := prop_kind_t.backward, is_fwd := false, is_bwd := true,
    is_training := false, has_zero_dim_memory := false, stats_is_src := false,
    use_global_stats := false, use_scaleshift := true, fuse_norm_relu := false,
    ndims := 4, C := 64, D := 1, H := 7, W := 7,
    src_md := plain_md data_type_t.f32 format_tag_t.nchw [2, 64, 7, 7],
    diff_src_md := plain_md data_type_t.f32 format_tag_t.nchw [2, 64, 7, 7],
    weights_md := plain_md data_type_t.f32 format_tag_t.nc [2, 64],
    diff_weights_md := plain_md data_type_t.f32 format_tag_t.nc [2, 64],
    attr := { has_default_values := true, relu_post_op := false },
    hint_fwd_pd_ := some { workspace_md := none },
    ws_md_ := none, scratchpad_registry := [] }

/-- The backward descriptor `bwd_f32` with fused activation, paired with a
forward descriptor that holds the same workspace. -/
def bwd_f32_fused : cpu.pd_t :=
  { bwd_f32 with
    fuse_norm_relu := true,
    hint_fwd_pd_ := some { workspace_md := some (bwd_f32.default_ws 8) } }

/-- The backward descriptor `bwd_f32` with an attribute whose only setting is
the fused-activation post-op. -/
def bwd_f32_relu_post_op : cpu.pd_t :=
  { bwd_f32 with attr := { has_default_values := false, relu_post_op := true } }

/-- Backward on a `1 x 1 x 16 x 268435457` tensor, `nchw`, bf16, without
scale-shift and without global statistics. -/
def bwd_bf16_wide : cpu.pd_t :=
  { bwd_f32 with
    use_scaleshift := false, C := 1, H := 16, W := 268435457,
    src_md := plain_md data_type_t.bf16 format_tag_t.nchw [1, 1, 16, 268435457],
    diff_src_md := plain_md data_type_t.bf16 format_tag_t.nchw [1, 1, 16, 268435457],
    weights_md := glob_zero_md, diff_weights_md := glob_zero_md }

/-- A forward inner product `[2, 64] x [10, 64] -> [2, 10]`, f32; the bias is
the given descriptor. -/
def ip_fwd (bias : memory_desc_t) : inner_product_fwd_pd_t :=
  inner_product_fwd_pd_t.create
    { prop_kind := prop_kind_t.forward_training,
      src_desc := plain_md data_type_t.f32 format_tag_t.nc [2, 64],
      diff_src_desc := glob_zero_md,
      weights_desc := plain_md data_type_t.f32 format_tag_t.nc [10, 64],
      diff_weights_desc := glob_zero_md,
      bias_desc := bias, diff_bias_desc := glob_zero_md,
      dst_desc := plain_md data_type_t.f32 format_tag_t.nc [2, 10],
      diff_dst_desc := glob_zero_md,
      accum_data_type := data_type_t.f32 }

/-- The backward descriptor `bwd_f32` with fused activation, paired with a
forward descriptor that has no workspace. -/
def bwd_f32_fused_unpaired : cpu.pd_t :=
  { bwd_f32 with fuse_norm_relu := true }

/-- Forward training on a `2 x 64 x 7 x 7` tensor, `nchw`, f32, with fused
activation. -/
def fwd_f32_training_fused : cpu.pd_t :=
  { fwd_f32 with
    prop_kind := prop_kind_t.forward_training, is_training := true, fuse_norm_relu := true }

/-- The description of a backward-weights inner product
`[2, 64], [2, 10] -> [10, 64]`, f32, with a diff-bias of ten elements. -/
def ip_bwd_weights_desc : inner_product_desc_t :=
  { prop_kind := prop_kind_t.backward_weights,
    src_desc := plain_md data_type_t.f32 format_tag_t.nc [2, 64],
    diff_src_desc := glob_zero_md,
    weights_desc := glob_zero_md,
    diff_weights_desc := plain_md data_type_t.f32 format_tag_t.nc [10, 64],
    bias_desc := glob_zero_md,
    diff_bias_desc := plain_md data_type_t.f32 format_tag_t.x [10],
    dst_desc := glob_zero_md,
    diff_dst_desc := plain_md data_type_t.f32 format_tag_t.nc [2, 10],
    accum_data_type := data_type_t.f32 }

/-- A backward-weights inner product with diff-bias, paired with the forward
descriptor that has no bias. -/
def ip_bwd_weights_bias : inner_product_bwd_weights_pd_t :=
  inner_product_bwd_weights_pd_t.create ip_bwd_weights_desc (some (ip_fwd glob_zero_md))

/-- A forward inner product on a `2 x 16 x 3 x 3` source padded to
`2 x 16 x 4 x 4`; the layout kind of the source is the given one. -/
def ip_fwd_padded (kind : format_kind_t) : inner_product_fwd_pd_t :=
  inner_product_fwd_pd_t.create
    { prop_kind := prop_kind_t.forward_inference,
      src_desc :=
        { ndims := 4, dims := [2, 16, 3, 3], padded_dims := [2, 16, 4, 4],
          data_type := data_type_t.f32, format_kind := kind,
          format_tag := format_tag_t.nchw },
      diff_src_desc := glob_zero_md,
      weights_desc := plain_md data_type_t.f32 format_tag_t.nchw [10, 16, 3, 3],
      diff_weights_desc := glob_zero_md,
      bias_desc := glob_zero_md, diff_bias_desc := glob_zero_md,
      dst_desc := plain_md data_type_t.f32 format_tag_t.nc [2, 10],
      diff_dst_desc := glob_zero_md,
      accum_data_type := data_type_t.f32 }

/-- The forward inner product `[2, 64] x [10, 64] -> [2, 10]` without bias,
its extent arrays written out in full: twelve entries, the ones from `ndims`
on zero. -/
def ip_fwd_dims12 : inner_product_fwd_pd_t :=
  inner_product_fwd_pd_t.create
    { prop_kind := prop_kind_t.forward_training,
      src_desc :=
        { ndims := 2, dims := [2, 64, 0, 0, 0, 0, 0, 0, 0, 0, 0, 0],
          padded_dims := [2, 64, 0, 0, 0, 0, 0, 0, 0, 0, 0, 0],
          data_type := data_type_t.f32, format_kind := format_kind_t.blocked,
          format_tag := format_tag_t.nc },
      diff_src_desc := glob_zero_md,
      weights_desc :=
        { ndims := 2, dims := [10, 64, 0, 0, 0, 0, 0, 0, 0, 0, 0, 0],
          padded_dims := [10, 64, 0, 0, 0, 0, 0, 0, 0, 0, 0, 0],
          data_type := data_type_t.f32, format_kind := format_kind_t.blocked,
          format_tag := format_tag_t.nc },
      diff_weights_desc := glob_zero_md,
      bias_desc := glob_zero_md, diff_bias_desc := glob_zero_md,
      dst_desc :=
        { ndims := 2, dims := [2, 10, 0, 0, 0, 0, 0, 0, 0, 0, 0, 0],
          padded_dims := [2, 10, 0, 0, 0, 0, 0, 0, 0, 0, 0, 0],
          data_type := data_type_t.f32, format_kind := format_kind_t.blocked,
          format_tag := format_tag_t.nc },
      diff_dst_desc := glob_zero_md,
      accum_data_type := data_type_t.f32 }

end sample

/-! ## Auxiliary facts -/

open memory_tracking memory_tracking.names cpu

/-- Looking a key up after one more `book`: an earlier booking wins. -/
theorem booked_size_book (r : registry_t) (k key : names) (s : Nat) :
    booked_size (book r k s) key =
      (booked_size r key).orElse (fun _ => if k = key then some s else none) := by
  induction r with
  | nil => simp [book, booked_size]
  | cons e r ih =>
    obtain ⟨k0, s0⟩ := e
    by_cases h : k0 = key
    · simp [book, booked_size, h]
    · simpa [book, booked_size, h] using ih

/-- A key is booked after `book` when it was booked before or is the new key. -/
theorem is_booked_book (r : registry_t) (k key : names) (s : Nat) :
    is_booked (book r k s) key = (is_booked r key || decide (k = key)) := by
  unfold is_booked
  rw [booked_size_book]
  cases booked_size r key <;> by_cases h : k = key <;> simp [h]

/-- A `size_t` product that fits is the product. -/
theorem size_t_mul_of_lt (a b : Nat) (h : a * b < 2 ^ 64) : size_t_mul a b = a * b := by
  unfold size_t_mul SIZE_MOD
  exact Nat.mod_eq_of_lt h

/-- Two chained `size_t` products reduce the full product once. -/
theorem size_t_mul_mul (a b c : Nat) :
    size_t_mul (size_t_mul a b) c = (a * b * c) % SIZE_MOD := by
  unfold size_t_mul
  exact Nat.mod_mul_mod

/-- Two chained `size_t` products that fit are the product. -/
theorem size_t_mul_mul_of_lt (a b c : Nat) (h : a * b * c < 2 ^ 64) :
    size_t_mul (size_t_mul a b) c = a * b * c := by
  rw [size_t_mul_mul]
  exact Nat.mod_eq_of_lt h

/-- Three chained `size_t` products reduce the full product once. -/
theorem size_t_mul_mul_mul (a b c d : Nat) :
    size_t_mul (size_t_mul (size_t_mul a b) c) d = (a * b * c * d) % SIZE_MOD := by
  unfold size_t_mul
  rw [Nat.mod_mul_mod, Nat.mul_assoc (a * b % SIZE_MOD), Nat.mod_mul_mod, ← Nat.mul_assoc]

/-- The specification's `round_up` is the least multiple above its argument. -/
theorem round_up_least (a b : Nat) (hb : 0 < b) :
    b ∣ round_up a b ∧ a ≤ round_up a b ∧ ∀ m, b ∣ m → a ≤ m → round_up a b ≤ m := by
  unfold round_up
  refine ⟨Dvd.intro_left _ rfl, ?_, ?_⟩
  · have h := Nat.div_add_mod (a + b - 1) b
    have h2 := Nat.mod_lt (a + b - 1) hb
    have h3 : (a + b - 1) / b * b = b * ((a + b - 1) / b) := Nat.mul_comm _ _
    omega
  · rintro m ⟨c, rfl⟩ hle
    rw [Nat.mul_comm b c]
    apply Nat.mul_le_mul_right
    rw [Nat.div_le_iff_le_mul_add_pred hb]
    omega

/-- Narrowing to `int` keeps a value below `2 ^ 31`. -/
theorem to_int_of_lt (n : Nat) (h : n < 2 ^ 31) : to_int (n : Int) = n := by
  unfold to_int
  omega

/-- Conversion to `size_t` keeps a value below `2 ^ 64`. -/
theorem to_size_t_natCast (n : Nat) (h : n < 2 ^ 64) : to_size_t (n : Int) = n := by
  unfold to_size_t SIZE_MOD
  omega

/-- On a non-negative argument with `n + 15` in the range of `int`,
`utils::rnd_up(n, 16)` is the specification's `round_up(n, 16)`. -/
theorem rnd_up_natCast (n : Nat) (hn : n + 15 < 2 ^ 31) :
    utils.rnd_up (n : Int) 16 = (round_up n 16 : Nat) := by
  unfold utils.rnd_up utils.div_up round_up
  have h : ((n : Int) + 16 - 1) = ((n + 16 - 1 : Nat) : Int) := by omega
  rw [h, to_int_of_lt _ (by omega), Int.tdiv_eq_ediv (by omega) (by omega)]
  have hq : (((n + 16 - 1 : Nat) : Int) / 16 * 16) = (((n + 16 - 1) / 16 * 16 : Nat) : Int) := by
    push_cast
    rfl
  rw [hq, to_int_of_lt _ (by omega)]

/-- The conversion-buffer size expression is exact while the spatial extent fits
an `int` (with room for the rounding) and the byte count fits a `size_t`. -/
theorem bf16cvt_buf_sz_exact (nbufs T n : Nat) (hnb : nbufs < 2 ^ 64) (hn : n + 15 < 2 ^ 31)
    (hfit : 4 * nbufs * T * round_up n 16 < 2 ^ 64) :
    size_t_mul (size_t_mul (size_t_mul sizeof_acc_data_t (to_size_t (nbufs : Int))) T)
        (to_size_t (utils.rnd_up (to_int (n : Int)) 16))
      = 4 * nbufs * T * round_up n 16 := by
  have hr : round_up n 16 < 2 ^ 64 := by
    unfold round_up
    omega
  rw [to_int_of_lt n (by omega), rnd_up_natCast n hn, to_size_t_natCast _ hr,
    to_size_t_natCast _ hnb, size_t_mul_mul_mul]
  exact Nat.mod_eq_of_lt hfit

/-- For a rank of at most five, `one_of(ndims, 4, 5)` says the rank is at least four. -/
theorem one_of_four_five (n : Nat) (h : n ≤ 5) :
    utils.one_of n [4, 5] = decide (4 ≤ n) := by
  interval_cases n <;> decide

/-- The backward `ok` is the conjuncts before the attribute test and the
attribute test. -/
theorem bwd_init_ok_eq (d_type : data_type_t) (env : cpu_t) (pd : pd_t) :
    ncsp_batch_normalization_bwd_t.init_ok d_type env pd
      = (ncsp_batch_normalization_bwd_t.init_ok_before_attr d_type env pd
          && pd.attr.has_default_values) := rfl

/-- Status of the backward `init()` once the conjunction `ok` holds: only a
fused activation whose workspace differs from the paired forward one is rejected. -/
theorem bwd_init_status_of_ok (d_type : data_type_t) (env : cpu_t) (pd : pd_t)
    (hok : ncsp_batch_normalization_bwd_t.init_ok d_type env pd = true) :
    (ncsp_batch_normalization_bwd_t.init d_type env pd).1 =
      if pd.fuse_norm_relu = true ∧ pd.paired_fwd_workspace ≠ (pd.init_default_ws 8).ws_md_
      then status_t.unimplemented else status_t.success := by
  cases hr : pd.fuse_norm_relu
  · simp [ncsp_batch_normalization_bwd_t.init, hok, hr]
  · rcases hh : pd.hint_fwd_pd_ with _ | fwd
    · simp [ncsp_batch_normalization_bwd_t.init, hok, hr, pd_t.compare_ws,
        pd_t.init_default_ws, pd_t.paired_fwd_workspace, hh]
    · by_cases hw : fwd.workspace_md = some (pd.default_ws 8)
      · simp [ncsp_batch_normalization_bwd_t.init, hok, hr, pd_t.compare_ws,
          pd_t.init_default_ws, pd_t.paired_fwd_workspace, hh, hw]
      · simp [ncsp_batch_normalization_bwd_t.init, hok, hr, pd_t.compare_ws,
          pd_t.init_default_ws, pd_t.paired_fwd_workspace, hh, hw]

/-! ## Scratchpad bookings -/

section fwd_scratchpad
open ncsp_batch_normalization_fwd_t

/-- C1: on a forward descriptor with an empty registry, `init_scratchpad` books
the reduction buffer exactly when `stats_is_src()` is false; the booked size is
`4 * C * T` bytes whenever that byte count is a `size_t` value, and for
`C = 64`, `T = 8` it is 2048 bytes. -/
theorem fwd_reduction_buffer_booking (d_type : data_type_t) (env : cpu_t) (pd : pd_t)
    (hnew : pd.scratchpad_registry = []) :
    (is_booked (init_scratchpad d_type env pd).scratchpad_registry key_bnorm_reduction = true
        ↔ pd.stats_is_src = false)
    ∧ (pd.stats_is_src = false → 4 * pd.C * env.dnnl_get_max_threads < 2 ^ 64 →
        booked_size (init_scratchpad d_type env pd).scratchpad_registry key_bnorm_reduction
          = some (4 * pd.C * env.dnnl_get_max_threads))
    ∧ (pd.stats_is_src = false → pd.C = 64 → env.dnnl_get_max_threads = 8 →
        booked_size (init_scratchpad d_type env pd).scratchpad_registry key_bnorm_reduction
          = some 2048) := by
  have key : ∀ _hs : pd.stats_is_src = false,
      booked_size (init_scratchpad d_type env pd).scratchpad_registry key_bnorm_reduction
        = some (size_t_mul (size_t_mul sizeof_acc_data_t pd.C) env.dnnl_get_max_threads) := by
    intro hs
    by_cases ht : pd.is_training = true <;> by_cases hd : d_type = data_type_t.bf16 <;>
      simp [init_scratchpad, hs, ht, hd, hnew, booked_size_book, booked_size]
  refine ⟨?_, ?_, ?_⟩
  · cases hs : pd.stats_is_src
    · simp [is_booked, key hs]
    · by_cases hd : d_type = data_type_t.bf16 <;>
        simp [init_scratchpad, hs, hd, hnew, is_booked_book, is_booked, booked_size]
  · intro hs hfit
    rw [key hs]
    exact congrArg some (size_t_mul_mul_of_lt 4 _ _ hfit)
  · intro hs hC hT
    rw [key hs, hC, hT]
    decide

/-- C1 at `C = 64`, `T = 8`, f32 inference without external statistics: the
reduction buffer is booked with 2048 bytes. -/
theorem fwd_reduction_buffer_booking_witness :
    sample.fwd_f32.scratchpad_registry = []
    ∧ is_booked (init_scratchpad data_type_t.f32 sample.eight_threads
        sample.fwd_f32).scratchpad_registry key_bnorm_reduction = true
    ∧ booked_size (init_scratchpad data_type_t.f32 sample.eight_threads
        sample.fwd_f32).scratchpad_registry key_bnorm_reduction = some 2048 :=
  ⟨rfl,
    (fwd_reduction_buffer_booking data_type_t.f32 sample.eight_threads sample.fwd_f32 rfl).1.2 rfl,
    (fwd_reduction_buffer_booking data_type_t.f32 sample.eight_threads sample.fwd_f32 rfl).2.2
      rfl rfl rfl⟩

/-- C3: on a forward descriptor with an empty registry, the temporary-mean and
the temporary-variance buffers are booked exactly when `stats_is_src()` is false
and the descriptor is not in training mode, always both or neither; when booked
each has `4 * C` bytes, whenever that byte count is a `size_t` value. -/
theorem fwd_tmp_mean_var_booking (d_type : data_type_t) (env : cpu_t) (pd : pd_t)
    (hnew : pd.scratchpad_registry = []) :
    (is_booked (init_scratchpad d_type env pd).scratchpad_registry key_bnorm_tmp_mean = true
        ↔ (pd.stats_is_src = false ∧ pd.is_training = false))
    ∧ (is_booked (init_scratchpad d_type env pd).scratchpad_registry key_bnorm_tmp_var = true
        ↔ (pd.stats_is_src = false ∧ pd.is_training = false))
    ∧ (is_booked (init_scratchpad d_type env pd).scratchpad_registry key_bnorm_tmp_mean
        = is_booked (init_scratchpad d_type env pd).scratchpad_registry key_bnorm_tmp_var)
    ∧ (pd.stats_is_src = false → pd.is_training = false → 4 * pd.C < 2 ^ 64 →
        booked_size (init_scratchpad d_type env pd).scratchpad_registry key_bnorm_tmp_mean
            = some (4 * pd.C)
        ∧ booked_size (init_scratchpad d_type env pd).scratchpad_registry key_bnorm_tmp_var
            = some (4 * pd.C)) := by
  have hm : is_booked (init_scratchpad d_type env pd).scratchpad_registry key_bnorm_tmp_mean
      = (!pd.stats_is_src && !pd.is_training) := by
    cases hs : pd.stats_is_src <;> cases ht : pd.is_training <;>
      by_cases hd : d_type = data_type_t.bf16 <;>
      simp [init_scratchpad, hs, ht, hd, hnew, is_booked_book, is_booked, booked_size]
  have hv : is_booked (init_scratchpad d_type env pd).scratchpad_registry key_bnorm_tmp_var
      = (!pd.stats_is_src && !pd.is_training) := by
    cases hs : pd.stats_is_src <;> cases ht : pd.is_training <;>
      by_cases hd : d_type = data_type_t.bf16 <;>
      simp [init_scratchpad, hs, ht, hd, hnew, is_booked_book, is_booked, booked_size]
  refine ⟨?_, ?_, ?_, ?_⟩
  · rw [hm]; cases pd.stats_is_src <;> cases pd.is_training <;> simp
  · rw [hv]; cases pd.stats_is_src <;> cases pd.is_training <;> simp
  · rw [hm, hv]
  · intro hs ht hfit
    have h4 : size_t_mul sizeof_acc_data_t pd.C = 4 * pd.C := size_t_mul_of_lt 4 _ hfit
    constructor <;> by_cases hd : d_type = data_type_t.bf16 <;>
      simp [init_scratchpad, hs, ht, hd, hnew, booked_size_book, booked_size, h4]

/-- C3 at f32 inference with `C = 64`: both temporary buffers are booked, each
with 256 bytes. -/
theorem fwd_tmp_mean_var_booking_witness :
    sample.fwd_f32.scratchpad_registry = []
    ∧ booked_size (init_scratchpad data_type_t.f32 sample.eight_threads
        sample.fwd_f32).scratchpad_registry key_bnorm_tmp_mean = some 256
    ∧ booked_size (init_scratchpad data_type_t.f32 sample.eight_threads
        sample.fwd_f32).scratchpad_registry key_bnorm_tmp_var = some 256 :=
  ⟨rfl,
    (fwd_tmp_mean_var_booking data_type_t.f32 sample.eight_threads sample.fwd_f32 rfl).2.2.2
      rfl rfl (by decide)⟩

end fwd_scratchpad

section bwd_scratchpad
open ncsp_batch_normalization_bwd_t

/-- C2: on a backward descriptor with an empty registry, `init_scratchpad`
always books the reduction buffer, with `4 * 2 * C * T` bytes whenever that byte
count is a `size_t` value, and books the temporary diff-scale-shift buffer
exactly when it is not the case that scale-shift is in use and the direction is
`backward`, with `4 * 2 * C` bytes whenever that byte count is a `size_t` value. -/
theorem bwd_reduction_and_diff_ss_booking (d_type : data_type_t) (env : cpu_t) (pd : pd_t)
    (hnew : pd.scratchpad_registry = []) :
    is_booked (init_scratchpad d_type env pd).scratchpad_registry key_bnorm_reduction = true
    ∧ (4 * 2 * pd.C * env.dnnl_get_max_threads < 2 ^ 64 →
        booked_size (init_scratchpad d_type env pd).scratchpad_registry key_bnorm_reduction
          = some (4 * 2 * pd.C * env.dnnl_get_max_threads))
    ∧ (is_booked (init_scratchpad d_type env pd).scratchpad_registry key_bnorm_tmp_diff_ss = true
        ↔ ¬ (pd.use_scaleshift = true ∧ pd.prop_kind = prop_kind_t.backward))
    ∧ (¬ (pd.use_scaleshift = true ∧ pd.prop_kind = prop_kind_t.backward) →
        4 * 2 * pd.C < 2 ^ 64 →
        booked_size (init_scratchpad d_type env pd).scratchpad_registry key_bnorm_tmp_diff_ss
          = some (4 * 2 * pd.C)) := by
  have hred : booked_size (init_scratchpad d_type env pd).scratchpad_registry key_bnorm_reduction
      = some (size_t_mul (size_t_mul (size_t_mul sizeof_acc_data_t 2) pd.C)
          env.dnnl_get_max_threads) := by
    cases hs : pd.use_scaleshift <;> by_cases hp : pd.prop_kind = prop_kind_t.backward <;>
      by_cases hd : d_type = data_type_t.bf16 <;>
      simp [init_scratchpad, hs, hp, hd, hnew, booked_size_book, booked_size]
  have hss : ¬ (pd.use_scaleshift = true ∧ pd.prop_kind = prop_kind_t.backward) →
      booked_size (init_scratchpad d_type env pd).scratchpad_registry key_bnorm_tmp_diff_ss
        = some (size_t_mul (size_t_mul sizeof_acc_data_t 2) pd.C) := by
    intro hc
    cases hs : pd.use_scaleshift <;> by_cases hp : pd.prop_kind = prop_kind_t.backward <;>
      by_cases hd : d_type = data_type_t.bf16 <;>
      simp [init_scratchpad, hs, hp, hd, hnew, booked_size_book, booked_size] <;>
      simp [hs, hp] at hc
  refine ⟨?_, ?_, ?_, ?_⟩
  · simp [is_booked, hred]
  · intro hfit
    rw [hred]
    have h8 : size_t_mul sizeof_acc_data_t 2 = 4 * 2 := by decide
    rw [h8]
    exact congrArg some (size_t_mul_mul_of_lt (4 * 2) _ _ hfit)
  · by_cases hc : (pd.use_scaleshift = true ∧ pd.prop_kind = prop_kind_t.backward)
    · obtain ⟨hs, hp⟩ := hc
      by_cases hd : d_type = data_type_t.bf16 <;>
        simp [init_scratchpad, hs, hp, hd, hnew, is_booked_book, is_booked, booked_size]
    · simp [is_booked, hss hc, hc]
  · intro hc hfit
    rw [hss hc]
    exact congrArg some (size_t_mul_mul_of_lt 4 2 _ hfit)

/-- C2 at `C = 64`, `T = 8`, combined backward direction with scale-shift: the
reduction buffer has 4096 bytes and no temporary diff-scale-shift buffer is
booked. -/
theorem bwd_reduction_and_diff_ss_booking_witness :
    sample.bwd_f32.scratchpad_registry = []
    ∧ booked_size (init_scratchpad data_type_t.f32 sample.eight_threads
        sample.bwd_f32).scratchpad_registry key_bnorm_reduction = some 4096
    ∧ ¬ (is_booked (init_scratchpad data_type_t.f32 sample.eight_threads
        sample.bwd_f32).scratchpad_registry key_bnorm_tmp_diff_ss = true) :=
  ⟨rfl,
    (bwd_reduction_and_diff_ss_booking data_type_t.f32 sample.eight_threads sample.bwd_f32
      rfl).2.1 (by decide),
    fun h =>
      (bwd_reduction_and_diff_ss_booking data_type_t.f32 sample.eight_threads sample.bwd_f32
        rfl).2.2.1.1 h ⟨rfl, rfl⟩⟩

end bwd_scratchpad

/-! ## Conversion buffer of the reduced precision -/

section bf16cvt

/-- The forward conversion buffer is booked exactly for bf16. -/
theorem fwd_bf16cvt_booked_iff (d_type : data_type_t) (env : cpu_t) (pd : pd_t)
    (hnew : pd.scratchpad_registry = []) :
    is_booked (ncsp_batch_normalization_fwd_t.init_scratchpad d_type env
        pd).scratchpad_registry key_bnorm_bf16cvt = true
      ↔ d_type = data_type_t.bf16 := by
  cases hs : pd.stats_is_src <;> cases ht : pd.is_training <;>
    by_cases hd : d_type = data_type_t.bf16 <;>
    simp [ncsp_batch_normalization_fwd_t.init_scratchpad, hs, ht, hd, hnew, is_booked_book,
      is_booked, booked_size]

/-- The forward conversion buffer has `4 * 2 * T * round_up(SP, 16)` bytes for
a rank of at most five, as long as `SP + 15` fits an `int` and the byte count a
`size_t`. -/
theorem fwd_bf16cvt_size_in_int_range (env : cpu_t) (pd : pd_t)
    (hnew : pd.scratchpad_registry = []) (hrank : pd.ndims ≤ 5)
    (hsp : (if 4 ≤ pd.ndims then pd.D * pd.H * pd.W else 1) + 15 < 2 ^ 31)
    (hfit : 4 * 2 * env.dnnl_get_max_threads
        * round_up (if 4 ≤ pd.ndims then pd.D * pd.H * pd.W else 1) 16 < 2 ^ 64) :
    booked_size (ncsp_batch_normalization_fwd_t.init_scratchpad data_type_t.bf16 env
        pd).scratchpad_registry key_bnorm_bf16cvt
      = some (4 * 2 * env.dnnl_get_max_threads
          * round_up (if 4 ≤ pd.ndims then pd.D * pd.H * pd.W else 1) 16) := by
  have hsz := bf16cvt_buf_sz_exact 2 env.dnnl_get_max_threads _ (by norm_num) hsp hfit
  by_cases h4 : 4 ≤ pd.ndims
  · simp only [h4, if_true] at hsz ⊢
    cases hs : pd.stats_is_src <;> cases ht : pd.is_training <;>
      simp [ncsp_batch_normalization_fwd_t.init_scratchpad, hs, ht, hnew, booked_size_book,
        booked_size, one_of_four_five _ hrank, h4] <;> simpa using hsz
  · simp only [h4, if_false] at hsz ⊢
    cases hs : pd.stats_is_src <;> cases ht : pd.is_training <;>
      simp [ncsp_batch_normalization_fwd_t.init_scratchpad, hs, ht, hnew, booked_size_book,
        booked_size, one_of_four_five _ hrank, h4] <;> simpa using hsz

/-- C4 (code defect): on the bf16 forward descriptor of a `1 x 1 x 16 x 268435457`
tensor with one thread, `init()` succeeds and books the conversion buffer with
128 bytes, because `D * H * W = 2 ^ 32 + 16` is narrowed to the `int` 16; the
size of the claim, `4 * 2 * T * round_up(D * H * W, 16)`, is 34359738496 bytes. -/
theorem fwd_bf16cvt_spatial_extent_narrowed :
    (ncsp_batch_normalization_fwd_t.init data_type_t.bf16 sample.one_thread
        sample.fwd_bf16_wide).1 = status_t.success
    ∧ booked_size (ncsp_batch_normalization_fwd_t.init data_type_t.bf16 sample.one_thread
        sample.fwd_bf16_wide).2.scratchpad_registry key_bnorm_bf16cvt = some 128
    ∧ 4 * 2 * sample.one_thread.dnnl_get_max_threads
        * round_up (sample.fwd_bf16_wide.D * sample.fwd_bf16_wide.H * sample.fwd_bf16_wide.W) 16
      = 34359738496 := by
  decide

/-- The backward conversion buffer is booked exactly for bf16. -/
theorem bwd_bf16cvt_booked_iff (d_type : data_type_t) (env : cpu_t) (pd : pd_t)
    (hnew : pd.scratchpad_registry = []) :
    is_booked (ncsp_batch_normalization_bwd_t.init_scratchpad d_type env
        pd).scratchpad_registry key_bnorm_bf16cvt = true
      ↔ d_type = data_type_t.bf16 := by
  cases hs : pd.use_scaleshift <;> by_cases hp : pd.prop_kind = prop_kind_t.backward <;>
    by_cases hd : d_type = data_type_t.bf16 <;>
    simp [ncsp_batch_normalization_bwd_t.init_scratchpad, hs, hp, hd, hnew, is_booked_book,
      is_booked, booked_size]

/-- The backward conversion buffer has `4 * (2 + k) * T * round_up(SP, 16)`
bytes, `k = 1` without global statistics and `k = 0` with them, for a rank of at
most five, as long as `SP + 15` fits an `int` and the byte count a `size_t`. -/
theorem bwd_bf16cvt_size_in_int_range (env : cpu_t) (pd : pd_t)
    (hnew : pd.scratchpad_registry = []) (hrank : pd.ndims ≤ 5)
    (hsp : (if 4 ≤ pd.ndims then pd.D * pd.H * pd.W else 1) + 15 < 2 ^ 31)
    (hfit : 4 * (2 + (if pd.use_global_stats then 0 else 1)) * env.dnnl_get_max_threads
        * round_up (if 4 ≤ pd.ndims then pd.D * pd.H * pd.W else 1) 16 < 2 ^ 64) :
    booked_size (ncsp_batch_normalization_bwd_t.init_scratchpad data_type_t.bf16 env
        pd).scratchpad_registry key_bnorm_bf16cvt
      = some (4 * (2 + (if pd.use_global_stats then 0 else 1)) * env.dnnl_get_max_threads
          * round_up (if 4 ≤ pd.ndims then pd.D * pd.H * pd.W else 1) 16) := by
  have hsz := bf16cvt_buf_sz_exact (2 + (if pd.use_global_stats then 0 else 1))
    env.dnnl_get_max_threads _ (by split <;> norm_num) hsp hfit
  by_cases h4 : 4 ≤ pd.ndims
  · simp only [h4, if_true] at hsz ⊢
    cases hg : pd.use_global_stats <;> cases hs : pd.use_scaleshift <;>
      by_cases hp : pd.prop_kind = prop_kind_t.backward <;>
      simp [ncsp_batch_normalization_bwd_t.init_scratchpad, hg, hs, hp, hnew, booked_size_book,
        booked_size, one_of_four_five _ hrank, h4] <;> simpa [hg] using hsz
  · simp only [h4, if_false] at hsz ⊢
    cases hg : pd.use_global_stats <;> cases hs : pd.use_scaleshift <;>
      by_cases hp : pd.prop_kind = prop_kind_t.backward <;>
      simp [ncsp_batch_normalization_bwd_t.init_scratchpad, hg, hs, hp, hnew, booked_size_book,
        booked_size, one_of_four_five _ hrank, h4] <;> simpa [hg] using hsz

/-- C5 (code defect): on the bf16 backward descriptor of a `1 x 1 x 16 x 268435457`
tensor with one thread and no global statistics, `init()` succeeds and books the
conversion buffer with 192 bytes, because `D * H * W = 2 ^ 32 + 16` is narrowed
to the `int` 16; the size of the claim, `4 * (2 + 1) * T * round_up(D * H * W, 16)`,
is 51539607744 bytes. -/
theorem bwd_bf16cvt_spatial_extent_narrowed :
    (ncsp_batch_normalization_bwd_t.init data_type_t.bf16 sample.one_thread
        sample.bwd_bf16_wide).1 = status_t.success
    ∧ sample.bwd_bf16_wide.use_global_stats = false
    ∧ booked_size (ncsp_batch_normalization_bwd_t.init data_type_t.bf16 sample.one_thread
        sample.bwd_bf16_wide).2.scratchpad_registry key_bnorm_bf16cvt = some 192
    ∧ 4 * (2 + 1) * sample.one_thread.dnnl_get_max_threads
        * round_up (sample.bwd_bf16_wide.D * sample.bwd_bf16_wide.H * sample.bwd_bf16_wide.W) 16
      = 51539607744 := by
  decide

end bf16cvt

/-! ## Validation in `init()` -/

section validation

/-- C6: a backward descriptor that passes the conjunction `ok` of `init()` and
requests fused activation is rejected with `unimplemented` when the workspace
that `init_default_ws(8)` gives it differs from the workspace of the paired
forward descriptor, and `init()` returns `success` when the two are identical. -/
theorem bwd_init_workspace_comparison (d_type : data_type_t) (env : cpu_t) (pd : pd_t)
    (hok : ncsp_batch_normalization_bwd_t.init_ok d_type env pd = true)
    (hrelu : pd.fuse_norm_relu = true) :
    (pd.paired_fwd_workspace ≠ (pd.init_default_ws 8).ws_md_ →
        (ncsp_batch_normalization_bwd_t.init d_type env pd).1 = status_t.unimplemented)
    ∧ (pd.paired_fwd_workspace = (pd.init_default_ws 8).ws_md_ →
        (ncsp_batch_normalization_bwd_t.init d_type env pd).1 = status_t.success) := by
  rw [bwd_init_status_of_ok d_type env pd hok]
  constructor
  · intro h
    simp [hrelu, h]
  · intro h
    simp [h]

/-- C6 on a fused backward descriptor whose paired forward descriptor holds the
same workspace: `init()` returns `success`. -/
theorem bwd_init_workspace_comparison_witness :
    ncsp_batch_normalization_bwd_t.init_ok data_type_t.f32 sample.eight_threads
        sample.bwd_f32_fused = true
    ∧ sample.bwd_f32_fused.fuse_norm_relu = true
    ∧ (ncsp_batch_normalization_bwd_t.init data_type_t.f32 sample.eight_threads
        sample.bwd_f32_fused).1 = status_t.success :=
  ⟨by decide, rfl,
    (bwd_init_workspace_comparison data_type_t.f32 sample.eight_threads sample.bwd_f32_fused
      (by decide) rfl).2 (by decide)⟩

/-- C7: for the bf16 instantiation, when `mayiuse(avx512_core)` is false the
forward `init()` and the backward `init()` both return `unimplemented`, whatever
the descriptor. -/
theorem bf16_init_needs_avx512_core (env : cpu_t) (pd : pd_t)
    (hisa : env.mayiuse cpu_isa_t.avx512_core = false) :
    (ncsp_batch_normalization_fwd_t.init data_type_t.bf16 env pd).1 = status_t.unimplemented
    ∧ (ncsp_batch_normalization_bwd_t.init data_type_t.bf16 env pd).1
        = status_t.unimplemented := by
  constructor
  · simp [ncsp_batch_normalization_fwd_t.init, ncsp_batch_normalization_fwd_t.init_ok,
      IMPLICATION, hisa]
  · simp [ncsp_batch_normalization_bwd_t.init, ncsp_batch_normalization_bwd_t.init_ok,
      ncsp_batch_normalization_bwd_t.init_ok_before_attr, IMPLICATION, hisa]

/-- C7 on a machine that stops at avx2: the bf16 descriptors of the wide tensor
are rejected, forward and backward. -/
theorem bf16_init_needs_avx512_core_witness :
    sample.avx2_only.mayiuse cpu_isa_t.avx512_core = false
    ∧ (ncsp_batch_normalization_fwd_t.init data_type_t.bf16 sample.avx2_only
        sample.fwd_bf16_wide).1 = status_t.unimplemented
    ∧ (ncsp_batch_normalization_bwd_t.init data_type_t.bf16 sample.avx2_only
        sample.bwd_bf16_wide).1 = status_t.unimplemented :=
  ⟨by decide,
    (bf16_init_needs_avx512_core sample.avx2_only sample.fwd_bf16_wide (by decide)).1,
    (bf16_init_needs_avx512_core sample.avx2_only sample.bwd_bf16_wide (by decide)).2⟩

/-- C8: the forward `init()` returns `success` or `unimplemented`, and `success`
exactly when the direction is forward, no axis is zero-sized, the source element
type is the type of the variant, bf16 comes with `avx512_core`, scale-shift comes
with f32 scale-shift data, the source layout is `ncdhw`, `nchw` or `nc`, and
the attribute has default values or only the fused-activation post-op. -/
theorem fwd_init_success_iff (d_type : data_type_t) (env : cpu_t) (pd : pd_t) :
    ((ncsp_batch_normalization_fwd_t.init d_type env pd).1 = status_t.success
      ∨ (ncsp_batch_normalization_fwd_t.init d_type env pd).1 = status_t.unimplemented)
    ∧ ((ncsp_batch_normalization_fwd_t.init d_type env pd).1 = status_t.success ↔
        (pd.is_fwd = true
        ∧ pd.has_zero_dim_memory = false
        ∧ pd.src_md.data_type = d_type
        ∧ (d_type = data_type_t.bf16 → env.mayiuse cpu_isa_t.avx512_core = true)
        ∧ (pd.use_scaleshift = true → pd.weights_md.data_type = data_type_t.f32)
        ∧ (pd.src_md.format_tag = format_tag_t.ncdhw ∨ pd.src_md.format_tag = format_tag_t.nchw
            ∨ pd.src_md.format_tag = format_tag_t.nc)
        ∧ (pd.attr.has_default_values = true ∨ pd.with_relu_post_op = true))) := by
  have hok : ncsp_batch_normalization_fwd_t.init_ok d_type env pd = true ↔
      (pd.is_fwd = true
        ∧ pd.has_zero_dim_memory = false
        ∧ pd.src_md.data_type = d_type
        ∧ (d_type = data_type_t.bf16 → env.mayiuse cpu_isa_t.avx512_core = true)
        ∧ (pd.use_scaleshift = true → pd.weights_md.data_type = data_type_t.f32)
        ∧ (pd.src_md.format_tag = format_tag_t.ncdhw ∨ pd.src_md.format_tag = format_tag_t.nchw
            ∨ pd.src_md.format_tag = format_tag_t.nc)
        ∧ (pd.attr.has_default_values = true ∨ pd.with_relu_post_op = true)) := by
    simp only [ncsp_batch_normalization_fwd_t.init_ok, IMPLICATION,
      memory_desc_matches_one_of_tag, Bool.and_eq_true, Bool.or_eq_true, Bool.not_eq_true',
      decide_eq_true_eq, decide_eq_false_iff_not, Bool.true_and, List.contains_iff_exists_mem_beq,
      List.mem_cons, List.mem_singleton, beq_iff_eq]
    constructor
    · rintro ⟨⟨⟨⟨⟨⟨h1, h2⟩, h3⟩, h4⟩, h5⟩, h6⟩, h7⟩
      refine ⟨h1, h2, h3, ?_, ?_, ?_, h7⟩
      · intro hd; rcases h4 with h4 | h4
        · exact absurd hd h4
        · exact h4
      · intro hs; rcases h5 with h5 | h5
        · rw [hs] at h5; exact absurd h5 (by decide)
        · exact h5
      · obtain ⟨t, ht, he⟩ := h6
        rcases ht with ht | ht | ht | ht
        · left; rw [he, ht]
        · right; left; rw [he, ht]
        · right; right; rw [he, ht]
        · exact absurd ht (List.not_mem_nil _)
    · rintro ⟨h1, h2, h3, h4, h5, h6, h7⟩
      refine ⟨⟨⟨⟨⟨⟨h1, h2⟩, h3⟩, ?_⟩, ?_⟩, ?_⟩, h7⟩
      · by_cases hd : d_type = data_type_t.bf16
        · right; exact h4 hd
        · left; exact hd
      · cases hs : pd.use_scaleshift
        · left; rfl
        · right; exact h5 hs
      · rcases h6 with h6 | h6 | h6
        · exact ⟨_, Or.inl rfl, h6⟩
        · exact ⟨_, Or.inr (Or.inl rfl), h6⟩
        · exact ⟨_, Or.inr (Or.inr (Or.inl rfl)), h6⟩
  rw [← hok]
  cases h : ncsp_batch_normalization_fwd_t.init_ok d_type env pd <;>
    simp [ncsp_batch_normalization_fwd_t.init, h]

/-- C9 (as stated, refuted): a backward descriptor that satisfies every rule
before the attribute test, requests no fused activation, and carries an attribute
whose only setting is the fused-activation post-op is rejected by `init()` with
`unimplemented`. -/
theorem bwd_init_rejects_relu_post_op :
    ncsp_batch_normalization_bwd_t.init_ok_before_attr data_type_t.f32 sample.eight_threads
        sample.bwd_f32_relu_post_op = true
    ∧ sample.bwd_f32_relu_post_op.fuse_norm_relu = false
    ∧ sample.bwd_f32_relu_post_op.with_relu_post_op = true
    ∧ (ncsp_batch_normalization_bwd_t.init data_type_t.f32 sample.eight_threads
        sample.bwd_f32_relu_post_op).1 = status_t.unimplemented := by
  decide

/-- C9 (amended): with every rule before the attribute test satisfied, and the
workspace matching the paired forward one when fused activation is requested,
the backward `init()` returns `success` exactly when the attribute has default
values; every other attribute, the fused-activation post-op included, is rejected
with `unimplemented`. -/
theorem bwd_init_accepts_default_attr_only (d_type : data_type_t) (env : cpu_t) (pd : pd_t)
    (hrules : ncsp_batch_normalization_bwd_t.init_ok_before_attr d_type env pd = true)
    (hws : pd.fuse_norm_relu = true →
      pd.paired_fwd_workspace = (pd.init_default_ws 8).ws_md_) :
    ((ncsp_batch_normalization_bwd_t.init d_type env pd).1 = status_t.success
        ↔ pd.attr.has_default_values = true)
    ∧ (pd.attr.has_default_values = false →
        (ncsp_batch_normalization_bwd_t.init d_type env pd).1 = status_t.unimplemented) := by
  cases ha : pd.attr.has_default_values
  · simp [ncsp_batch_normalization_bwd_t.init, bwd_init_ok_eq, hrules, ha]
  · have hok : ncsp_batch_normalization_bwd_t.init_ok d_type env pd = true := by
      simp [bwd_init_ok_eq, hrules, ha]
    cases hr : pd.fuse_norm_relu
    · simp [ncsp_batch_normalization_bwd_t.init, hok, hr]
    · simp [bwd_init_status_of_ok d_type env pd hok, hws hr]

/-- C9 (amended) on the f32 backward descriptor with default attribute:
`init()` returns `success`. -/
theorem bwd_init_accepts_default_attr_only_witness :
    ncsp_batch_normalization_bwd_t.init_ok_before_attr data_type_t.f32 sample.eight_threads
        sample.bwd_f32 = true
    ∧ sample.bwd_f32.attr.has_default_values = true
    ∧ (ncsp_batch_normalization_bwd_t.init data_type_t.f32 sample.eight_threads
        sample.bwd_f32).1 = status_t.success :=
  ⟨by decide, rfl,
    (bwd_init_accepts_default_attr_only data_type_t.f32 sample.eight_threads sample.bwd_f32
      (by decide) (fun h => absurd h (by decide))).1.2 rfl⟩

end validation

/-! ## Inner product: argument counts -/

/-- C10: a forward inner-product descriptor with bias has three inputs and one
output, one without bias has two inputs and one output; for a description that
is not of the backward-weights direction the bias is present exactly when the
bias descriptor is not the zero descriptor. -/
theorem fwd_n_inputs_n_outputs (pd : inner_product_fwd_pd_t) :
    (pd.with_bias = true → pd.n_inputs = 3 ∧ pd.n_outputs = 1)
    ∧ (pd.with_bias = false → pd.n_inputs = 2 ∧ pd.n_outputs = 1)
    ∧ (pd.desc_.prop_kind ≠ prop_kind_t.backward_weights →
        (pd.with_bias = true ↔ pd.desc_.bias_desc.is_zero = false)) := by
  refine ⟨?_, ?_, ?_⟩
  · intro h
    simp [inner_product_fwd_pd_t.n_inputs, inner_product_fwd_pd_t.n_outputs, h]
  · intro h
    simp [inner_product_fwd_pd_t.n_inputs, inner_product_fwd_pd_t.n_outputs, h]
  · intro hp
    simp [inner_product_pd_t.with_bias, ip_prop_invariant_bia_d, hp]

/-- C10 on the sample `[2, 64] x [10, 64]` product: three inputs with a bias of
ten elements, two inputs with the zero bias descriptor, one output in both. -/
theorem fwd_n_inputs_n_outputs_sample :
    ((sample.ip_fwd (sample.plain_md data_type_t.f32 format_tag_t.x [10])).n_inputs = 3
      ∧ (sample.ip_fwd (sample.plain_md data_type_t.f32 format_tag_t.x [10])).n_outputs = 1)
    ∧ ((sample.ip_fwd glob_zero_md).n_inputs = 2
      ∧ (sample.ip_fwd glob_zero_md).n_outputs = 1) :=
  ⟨(fwd_n_inputs_n_outputs (sample.ip_fwd (sample.plain_md data_type_t.f32 format_tag_t.x
      [10]))).1 (by decide),
    (fwd_n_inputs_n_outputs (sample.ip_fwd glob_zero_md)).2.1 (by decide)⟩

/-! ## Inner product: argument roles -/

section arg_roles
open arg_t arg_usage_t

/-- C11: for the forward, the backward-data and the backward-weights descriptor,
`n_inputs()` is the number of the eight argument slots that `arg_usage` calls
input and `n_outputs()` the number it calls output; the roles are those of the
table (forward: SRC, WEIGHTS and BIAS-with-bias in, DST out; backward-data:
WEIGHTS, DIFF_DST in, DIFF_SRC out; backward-weights: SRC, DIFF_DST in,
DIFF_WEIGHTS and DIFF_BIAS-with-bias out) and every other slot is unused. -/
theorem n_inputs_n_outputs_count_arg_usage (f : inner_product_fwd_pd_t)
    (bd : inner_product_bwd_data_pd_t) (bw : inner_product_bwd_weights_pd_t) :
    (f.n_inputs = count_usage f.arg_usage input
      ∧ f.n_outputs = count_usage f.arg_usage output
      ∧ ∀ arg, f.arg_usage arg =
          if arg = DNNL_ARG_SRC ∨ arg = DNNL_ARG_WEIGHTS
              ∨ (arg = DNNL_ARG_BIAS ∧ f.with_bias = true) then input
          else if arg = DNNL_ARG_DST then output else unused)
    ∧ (bd.n_inputs = count_usage bd.arg_usage input
      ∧ bd.n_outputs = count_usage bd.arg_usage output
      ∧ ∀ arg, bd.arg_usage arg =
          if arg = DNNL_ARG_WEIGHTS ∨ arg = DNNL_ARG_DIFF_DST then input
          else if arg = DNNL_ARG_DIFF_SRC then output else unused)
    ∧ (bw.n_inputs = count_usage bw.arg_usage input
      ∧ bw.n_outputs = count_usage bw.arg_usage output
      ∧ ∀ arg, bw.arg_usage arg =
          if arg = DNNL_ARG_SRC ∨ arg = DNNL_ARG_DIFF_DST then input
          else if arg = DNNL_ARG_DIFF_WEIGHTS
              ∨ (arg = DNNL_ARG_DIFF_BIAS ∧ bw.with_bias = true) then output
          else unused) := by
  refine ⟨⟨?_, ?_, ?_⟩, ⟨?_, ?_, ?_⟩, ⟨?_, ?_, ?_⟩⟩
  · cases h : f.with_bias <;>
      simp [inner_product_fwd_pd_t.n_inputs, count_usage, arg_t.all,
        inner_product_fwd_pd_t.arg_usage, primitive_desc_t.arg_usage, utils.one_of, h]
  · cases h : f.with_bias <;>
      simp [inner_product_fwd_pd_t.n_outputs, count_usage, arg_t.all,
        inner_product_fwd_pd_t.arg_usage, primitive_desc_t.arg_usage, utils.one_of, h]
  · intro arg
    cases h : f.with_bias <;> cases arg <;>
      simp [inner_product_fwd_pd_t.arg_usage, primitive_desc_t.arg_usage, utils.one_of, h]
  · simp [inner_product_bwd_data_pd_t.n_inputs, count_usage, arg_t.all,
      inner_product_bwd_data_pd_t.arg_usage, primitive_desc_t.arg_usage, utils.one_of]
  · simp [inner_product_bwd_data_pd_t.n_outputs, count_usage, arg_t.all,
      inner_product_bwd_data_pd_t.arg_usage, primitive_desc_t.arg_usage, utils.one_of]
  · intro arg
    cases arg <;>
      simp [inner_product_bwd_data_pd_t.arg_usage, primitive_desc_t.arg_usage, utils.one_of]
  · cases h : bw.with_bias <;>
      simp [inner_product_bwd_weights_pd_t.n_inputs, count_usage, arg_t.all,
        inner_product_bwd_weights_pd_t.arg_usage, primitive_desc_t.arg_usage, utils.one_of, h]
  · cases h : bw.with_bias <;>
      simp [inner_product_bwd_weights_pd_t.n_outputs, count_usage, arg_t.all,
        inner_product_bwd_weights_pd_t.arg_usage, primitive_desc_t.arg_usage, utils.one_of, h]
  · intro arg
    cases h : bw.with_bias <;> cases arg <;>
      simp [inner_product_bwd_weights_pd_t.arg_usage, primitive_desc_t.arg_usage,
        utils.one_of, h]

/-- C12 (as stated, refuted): a backward-weights descriptor with a diff-bias of
ten elements, paired with a forward descriptor without bias, has bias present,
DIFF_BIAS as an output and two outputs. -/
theorem bwd_weights_bias_not_mirrored :
    sample.ip_bwd_weights_bias.hint_fwd_pd_ = some (sample.ip_fwd glob_zero_md)
    ∧ (sample.ip_fwd glob_zero_md).with_bias = false
    ∧ sample.ip_bwd_weights_bias.with_bias = true
    ∧ sample.ip_bwd_weights_bias.arg_usage DNNL_ARG_DIFF_BIAS = output
    ∧ sample.ip_bwd_weights_bias.n_outputs = 2 := by
  decide

/-- C12 (amended): for a backward-weights descriptor of the backward-weights
direction, `with_bias()`, DIFF_BIAS being an output and `n_outputs() == 2` each
hold exactly when its own diff-bias descriptor is not the zero descriptor; the
paired forward descriptor has no part in it. -/
theorem bwd_weights_with_bias_iff_own_diff_bias (pd : inner_product_bwd_weights_pd_t)
    (hdir : pd.desc_.prop_kind = prop_kind_t.backward_weights) :
    (pd.with_bias = true ↔ pd.desc_.diff_bias_desc.is_zero = false)
    ∧ (pd.arg_usage DNNL_ARG_DIFF_BIAS = output ↔ pd.with_bias = true)
    ∧ (pd.n_outputs = 2 ↔ pd.with_bias = true)
    ∧ ∀ hint : Option inner_product_fwd_pd_t,
        ({ pd with hint_fwd_pd_ := hint } : inner_product_bwd_weights_pd_t).with_bias
          = pd.with_bias := by
  refine ⟨?_, ?_, ?_, ?_⟩
  · simp [inner_product_pd_t.with_bias, ip_prop_invariant_bia_d, hdir]
  · cases h : pd.with_bias <;>
      simp [inner_product_bwd_weights_pd_t.arg_usage, primitive_desc_t.arg_usage,
        utils.one_of, h]
  · cases h : pd.with_bias <;> simp [inner_product_bwd_weights_pd_t.n_outputs, h]
  · intro hint
    rfl

/-- C12 (amended) on the sample backward-weights descriptor: its diff-bias is
not the zero descriptor, so bias is present, whatever the paired descriptor. -/
theorem bwd_weights_with_bias_iff_own_diff_bias_witness :
    sample.ip_bwd_weights_bias.desc_.prop_kind = prop_kind_t.backward_weights
    ∧ sample.ip_bwd_weights_bias.desc_.diff_bias_desc.is_zero = false
    ∧ sample.ip_bwd_weights_bias.with_bias = true :=
  ⟨rfl, rfl,
    (bwd_weights_with_bias_iff_own_diff_bias sample.ip_bwd_weights_bias rfl).1.2 rfl⟩

end arg_roles

/-! ## Inner product: shapes, types and accessors -/

section ip_shapes

/-- The product that `utils::array_product` folds is the product of the list. -/
theorem array_product_eq_prod (arr : List Nat) (size : Nat) :
    utils.array_product arr size = (arr.take size).prod := by
  unfold utils.array_product
  generalize arr.take size = l
  have h : ∀ (l : List Nat) (a : Nat), l.foldl (· * ·) a = a * l.prod := by
    intro l
    induction l with
    | nil => intro a; simp
    | cons x xs ih => intro a; simp [List.foldl_cons, ih, Nat.mul_assoc]
  simpa using h l 1

/-- The count `ndims() - 1` as a `size_t`, for a rank from 1 up to `2 ^ 63`. -/
theorem to_size_t_ndims_pred (n : Nat) (h1 : 1 ≤ n) (h2 : n < 2 ^ 63) :
    to_size_t ((n : Int) - 1) = n - 1 := by
  unfold to_size_t SIZE_MOD
  omega

/-- C13: when the direction-invariant source has rank 2 and extents `[N, C]`,
whatever the entries of the extent array behind these two, `IC_total()` is `C`
and `IC()` is `C`. -/
theorem IC_total_eq_IC_of_rank_two (pd : inner_product_pd_t) (N C : Nat) (rest : List Nat)
    (hrank : (ip_prop_invariant_src_d pd.desc_).ndims = 2)
    (hdims : (ip_prop_invariant_src_d pd.desc_).dims = N :: C :: rest) :
    pd.IC_total = C ∧ pd.IC = C := by
  constructor
  · have h : to_size_t 1 = 1 := by decide
    simp [inner_product_pd_t.IC_total, inner_product_pd_t.ndims, hrank, hdims,
      utils.array_product, h]
  · simp [inner_product_pd_t.IC, hdims, dims_at]

/-- C13 on the sample `[2, 64]` source with its twelve-entry extent array:
`IC_total()` and `IC()` are 64. -/
theorem IC_total_eq_IC_of_rank_two_witness :
    (ip_prop_invariant_src_d sample.ip_fwd_dims12.desc_).ndims = 2
    ∧ (ip_prop_invariant_src_d sample.ip_fwd_dims12.desc_).dims
        = 2 :: 64 :: [0, 0, 0, 0, 0, 0, 0, 0, 0, 0]
    ∧ sample.ip_fwd_dims12.IC_total = 64
    ∧ sample.ip_fwd_dims12.IC = 64 :=
  ⟨rfl, rfl,
    IC_total_eq_IC_of_rank_two sample.ip_fwd_dims12.toinner_product_pd_t 2 64
      [0, 0, 0, 0, 0, 0, 0, 0, 0, 0] rfl rfl⟩

/-- C14: `has_zero_dim_memory()` is true exactly when zero is one of the
`ndims` logical extents of the direction-invariant source descriptor or of the
direction-invariant destination descriptor, for every rank. -/
theorem has_zero_dim_memory_iff (pd : inner_product_pd_t) :
    pd.has_zero_dim_memory = true ↔
      (0 ∈ (ip_prop_invariant_src_d pd.desc_).dims.take (ip_prop_invariant_src_d pd.desc_).ndims
      ∨ 0 ∈ (ip_prop_invariant_dst_d pd.desc_).dims.take
          (ip_prop_invariant_dst_d pd.desc_).ndims) := by
  simp [inner_product_pd_t.has_zero_dim_memory, memory_desc_t.has_zero_dim]

/-- C15: `expect_data_types` is true exactly when every expectation other than
`undef` equals the element type of the matching direction-invariant descriptor
(the accumulation type for `acc_dt`), the bias expectation counting only when
bias is present; with five `undef` expectations it is true. -/
theorem expect_data_types_iff (pd : inner_product_pd_t)
    (src_dt wei_dt bia_dt dst_dt acc_dt : data_type_t) :
    (pd.expect_data_types src_dt wei_dt bia_dt dst_dt acc_dt = true ↔
      ((src_dt = data_type_t.undef ∨ (ip_prop_invariant_src_d pd.desc_).data_type = src_dt)
      ∧ (wei_dt = data_type_t.undef ∨ (ip_prop_invariant_wei_d pd.desc_).data_type = wei_dt)
      ∧ (dst_dt = data_type_t.undef ∨ (ip_prop_invariant_dst_d pd.desc_).data_type = dst_dt)
      ∧ (acc_dt = data_type_t.undef ∨ pd.desc_.accum_data_type = acc_dt)
      ∧ (pd.with_bias = true →
          bia_dt = data_type_t.undef
            ∨ (ip_prop_invariant_bia_d pd.desc_).data_type = bia_dt)))
    ∧ pd.expect_data_types data_type_t.undef data_type_t.undef data_type_t.undef
        data_type_t.undef data_type_t.undef = true := by
  constructor
  · cases hb : pd.with_bias <;> by_cases hu : bia_dt = data_type_t.undef <;>
      simp [inner_product_pd_t.expect_data_types, inner_product_pd_t._src_md,
        inner_product_pd_t._wei_md, inner_product_pd_t._bia_md, inner_product_pd_t._dst_md,
        hb, hu, and_assoc]
  · cases hb : pd.with_bias <;> simp [inner_product_pd_t.expect_data_types, hb]

/-- C16 (as stated, refuted): with assertions compiled in, `IC_total_padded()`
on a forward descriptor whose source is not in a blocked layout does not return
the sentinel: the assertion fails and ends the program. -/
theorem IC_total_padded_assert_fails :
    (sample.ip_fwd_padded format_kind_t.any).src_md_.is_blocking_desc = false
    ∧ (sample.ip_fwd_padded format_kind_t.any).IC_total_padded true
        (sample.ip_fwd_padded format_kind_t.any).src_md_ glob_zero_md = none
    ∧ (sample.ip_fwd_padded format_kind_t.any).IC_total_padded true
        (sample.ip_fwd_padded format_kind_t.any).src_md_ glob_zero_md ≠ some (-1) := by
  decide

/-- C16 (amended): let the relevant descriptor be the one `diff_src_md()`
returns for the backward-data direction and the one `src_md()` returns
otherwise. When it is not in a blocked layout, `IC_total_padded()` returns -1 in
a build without assertions, and the assertion ends the program in a build with
them, for every rank. When it is in a blocked layout and the rank is at least 1
(and below `2 ^ 63`, as every `int` is), `IC_total_padded()` returns the product
of the padded extents of the axes `1 .. rank - 1`, in both builds. -/
theorem IC_total_padded_spec (pd : inner_product_pd_t) (src_md diff_src_md : memory_desc_t) :
    ((if pd.desc_.prop_kind = prop_kind_t.backward_data then diff_src_md
        else src_md).is_blocking_desc = false →
      pd.IC_total_padded false src_md diff_src_md = some (-1)
      ∧ pd.IC_total_padded true src_md diff_src_md = none)
    ∧ ((if pd.desc_.prop_kind = prop_kind_t.backward_data then diff_src_md
        else src_md).is_blocking_desc = true →
      1 ≤ pd.ndims → pd.ndims < 2 ^ 63 →
      ∀ assertions : Bool,
        pd.IC_total_padded assertions src_md diff_src_md =
          some ((((if pd.desc_.prop_kind = prop_kind_t.backward_data then diff_src_md
            else src_md).padded_dims.drop 1).take (pd.ndims - 1)).prod : Nat)) := by
  constructor
  · intro h
    simp [inner_product_pd_t.IC_total_padded, inner_product_pd_t.desc, h]
  · intro h hrank hrank63 assertions
    simp [inner_product_pd_t.IC_total_padded, inner_product_pd_t.desc, h,
      array_product_eq_prod, to_size_t_ndims_pred _ hrank hrank63]

/-- C16 (amended) on the padded sample source `2 x 16 x 3 x 3` in
`2 x 16 x 4 x 4`: blocked, the padded channel count is 256; not blocked and
without assertions, the result is -1; the zero descriptor of rank 0, not
blocked, gives -1 as well. -/
theorem IC_total_padded_spec_witness :
    (sample.ip_fwd_padded format_kind_t.blocked).IC_total_padded true
        (sample.ip_fwd_padded format_kind_t.blocked).src_md_ glob_zero_md = some 256
    ∧ (sample.ip_fwd_padded format_kind_t.any).IC_total_padded false
        (sample.ip_fwd_padded format_kind_t.any).src_md_ glob_zero_md = some (-1)
    ∧ (inner_product_fwd_pd_t.create
        { (sample.ip_fwd glob_zero_md).desc_ with src_desc := glob_zero_md }).ndims = 0
    ∧ (inner_product_fwd_pd_t.create
        { (sample.ip_fwd glob_zero_md).desc_ with src_desc := glob_zero_md }).IC_total_padded
          false glob_zero_md glob_zero_md = some (-1) :=
  ⟨(IC_total_padded_spec (sample.ip_fwd_padded format_kind_t.blocked).toinner_product_pd_t
      (sample.ip_fwd_padded format_kind_t.blocked).src_md_ glob_zero_md).2
      rfl (by decide) (by decide) true,
    ((IC_total_padded_spec (sample.ip_fwd_padded format_kind_t.any).toinner_product_pd_t
      (sample.ip_fwd_padded format_kind_t.any).src_md_ glob_zero_md).1 rfl).1,
    rfl,
    ((IC_total_padded_spec (inner_product_fwd_pd_t.create
        { (sample.ip_fwd glob_zero_md).desc_ with
          src_desc := glob_zero_md }).toinner_product_pd_t
      glob_zero_md glob_zero_md).1 rfl).1⟩

/-- C17: a descriptor of any of the three variants constructed from a
description `d` answers `query(inner_product_d, idx)` with `success` and the
description `d`, for every index and whatever the base query does; the stored
description is `d`. -/
theorem query_inner_product_d_round_trip (d : inner_product_desc_t)
    (hint : Option inner_product_fwd_pd_t) (base_query : query_t → Int → status_t)
    (idx : Int) :
    ((inner_product_fwd_pd_t.create d).query base_query query_t.inner_product_d idx
        = (status_t.success, some d)
      ∧ (inner_product_fwd_pd_t.create d).desc_ = d)
    ∧ ((inner_product_bwd_data_pd_t.create d hint).query base_query query_t.inner_product_d idx
        = (status_t.success, some d)
      ∧ (inner_product_bwd_data_pd_t.create d hint).desc_ = d)
    ∧ ((inner_product_bwd_weights_pd_t.create d hint).query base_query
          query_t.inner_product_d idx = (status_t.success, some d)
      ∧ (inner_product_bwd_weights_pd_t.create d hint).desc_ = d) :=
  ⟨⟨rfl, rfl⟩, ⟨rfl, rfl⟩, ⟨rfl, rfl⟩⟩

/-- C18: every memory-descriptor accessor returns the address of the shared
`glob_zero_md` beyond the slots of its variant: for an index other than 0 in
`src_md`, `dst_md`, `diff_src_md`, `diff_dst_md` and the backward-data
`weights_md`; in the forward `weights_md` and the backward-weights
`diff_weights_md` for an index other than 0 and 1, and for index 1 without bias,
index 1 giving the bias (diff-bias) descriptor exactly when bias is present. -/
theorem md_accessors_beyond_slots (f : inner_product_fwd_pd_t)
    (bd : inner_product_bwd_data_pd_t) (bw : inner_product_bwd_weights_pd_t) (index : Int) :
    (index ≠ 0 →
      f.src_md index = md_ref_t.glob_zero_md ∧ f.dst_md index = md_ref_t.glob_zero_md
      ∧ bd.diff_src_md index = md_ref_t.glob_zero_md
      ∧ bd.diff_dst_md index = md_ref_t.glob_zero_md
      ∧ bd.weights_md index = md_ref_t.glob_zero_md
      ∧ bw.src_md index = md_ref_t.glob_zero_md
      ∧ bw.diff_dst_md index = md_ref_t.glob_zero_md)
    ∧ (index ≠ 0 → index ≠ 1 →
      f.weights_md index = md_ref_t.glob_zero_md
      ∧ bw.diff_weights_md index = md_ref_t.glob_zero_md)
    ∧ (f.with_bias = false → f.weights_md 1 = md_ref_t.glob_zero_md)
    ∧ (bw.with_bias = false → bw.diff_weights_md 1 = md_ref_t.glob_zero_md)
    ∧ (f.weights_md 1 = md_ref_t.bias_md_ ↔ f.with_bias = true)
    ∧ (bw.diff_weights_md 1 = md_ref_t.diff_bias_md_ ↔ bw.with_bias = true)
    ∧ (f.deref md_ref_t.glob_zero_md = glob_zero_md ∧ glob_zero_md.is_zero = true) := by
  refine ⟨?_, ?_, ?_, ?_, ?_, ?_, ?_⟩
  · intro h
    simp [inner_product_fwd_pd_t.src_md, inner_product_fwd_pd_t.dst_md,
      inner_product_bwd_data_pd_t.diff_src_md, inner_product_bwd_data_pd_t.diff_dst_md,
      inner_product_bwd_data_pd_t.weights_md, inner_product_bwd_weights_pd_t.src_md,
      inner_product_bwd_weights_pd_t.diff_dst_md, h]
  · intro h0 h1
    simp [inner_product_fwd_pd_t.weights_md, inner_product_bwd_weights_pd_t.diff_weights_md,
      h0, h1]
  · intro h
    simp [inner_product_fwd_pd_t.weights_md, h]
  · intro h
    simp [inner_product_bwd_weights_pd_t.diff_weights_md, h]
  · cases h : f.with_bias <;> simp [inner_product_fwd_pd_t.weights_md, h]
  · cases h : bw.with_bias <;> simp [inner_product_bwd_weights_pd_t.diff_weights_md, h]
  · exact ⟨rfl, rfl⟩

end ip_shapes

/-! ## Batch normalization: what `init()` leaves behind -/

section init_effects

/-- The forward `init()` that rejects leaves the descriptor as it was. -/
theorem fwd_init_unimplemented_frame (d_type : data_type_t) (env : cpu_t) (pd : pd_t)
    (h : (ncsp_batch_normalization_fwd_t.init d_type env pd).1 = status_t.unimplemented) :
    (ncsp_batch_normalization_fwd_t.init d_type env pd).2 = pd := by
  cases hok : ncsp_batch_normalization_fwd_t.init_ok d_type env pd
  · simp [ncsp_batch_normalization_fwd_t.init, hok]
  · simp [ncsp_batch_normalization_fwd_t.init, hok] at h

/-- The workspace after `init_scratchpad` of the forward descriptor is the one
before. -/
theorem fwd_init_scratchpad_ws (d_type : data_type_t) (env : cpu_t) (pd : pd_t) :
    (ncsp_batch_normalization_fwd_t.init_scratchpad d_type env pd).ws_md_ = pd.ws_md_ := rfl

/-- The comparison after `init_default_ws`: the paired forward workspace is
the default workspace. -/
theorem compare_ws_init_default_ws (pd : pd_t) (bits : Nat) :
    (pd.init_default_ws bits).compare_ws
      = decide (pd.paired_fwd_workspace = some (pd.default_ws bits)) := by
  rcases hh : pd.hint_fwd_pd_ with _ | fwd <;>
    simp [pd_t.compare_ws, pd_t.init_default_ws, pd_t.paired_fwd_workspace, hh]

/-- The backward `init()` once the conjunction `ok` holds. -/
theorem bwd_init_eq_of_ok (d_type : data_type_t) (env : cpu_t) (pd : pd_t)
    (hok : ncsp_batch_normalization_bwd_t.init_ok d_type env pd = true) :
    ncsp_batch_normalization_bwd_t.init d_type env pd =
      if pd.fuse_norm_relu = true then
        if (pd.init_default_ws 8).compare_ws = true then
          (status_t.success,
            ncsp_batch_normalization_bwd_t.init_scratchpad d_type env (pd.init_default_ws 8))
        else (status_t.unimplemented, pd.init_default_ws 8)
      else (status_t.success, ncsp_batch_normalization_bwd_t.init_scratchpad d_type env pd) := by
  unfold ncsp_batch_normalization_bwd_t.init
  simp only [hok, Bool.not_true, Bool.false_eq_true, if_false]
  cases pd.fuse_norm_relu
  · simp
  · cases (pd.init_default_ws 8).compare_ws <;> simp

/-- C19 (as stated, refuted): the backward `init()` of a fused descriptor whose
paired forward descriptor has no workspace returns `unimplemented`, and the
workspace descriptor, absent before the call, is set after it. -/
theorem bwd_init_unimplemented_sets_workspace :
    (ncsp_batch_normalization_bwd_t.init data_type_t.f32 sample.eight_threads
        sample.bwd_f32_fused_unpaired).1 = status_t.unimplemented
    ∧ sample.bwd_f32_fused_unpaired.ws_md_ = none
    ∧ (ncsp_batch_normalization_bwd_t.init data_type_t.f32 sample.eight_threads
        sample.bwd_f32_fused_unpaired).2.ws_md_
        = some (sample.bwd_f32_fused_unpaired.default_ws 8)
    ∧ (ncsp_batch_normalization_bwd_t.init data_type_t.f32 sample.eight_threads
        sample.bwd_f32_fused_unpaired).2.ws_md_ ≠ sample.bwd_f32_fused_unpaired.ws_md_ := by
  decide

/-- C19 (amended): when the forward `init()` returns `unimplemented`, the
scratchpad registry and the workspace descriptor are those before the call.
When the backward `init()` returns `unimplemented`, the scratchpad registry is
the one before the call; the workspace descriptor is the one before the call
when the conjunction `ok` failed, and is the default 8-bit workspace when `ok`
held and the comparison with the paired forward workspace failed. -/
theorem init_unimplemented_frame (d_type : data_type_t) (env : cpu_t) (pd : pd_t) :
    ((ncsp_batch_normalization_fwd_t.init d_type env pd).1 = status_t.unimplemented →
      (ncsp_batch_normalization_fwd_t.init d_type env pd).2.scratchpad_registry
          = pd.scratchpad_registry
      ∧ (ncsp_batch_normalization_fwd_t.init d_type env pd).2.ws_md_ = pd.ws_md_)
    ∧ ((ncsp_batch_normalization_bwd_t.init d_type env pd).1 = status_t.unimplemented →
      (ncsp_batch_normalization_bwd_t.init d_type env pd).2.scratchpad_registry
          = pd.scratchpad_registry
      ∧ (ncsp_batch_normalization_bwd_t.init_ok d_type env pd = false →
          (ncsp_batch_normalization_bwd_t.init d_type env pd).2.ws_md_ = pd.ws_md_)
      ∧ (ncsp_batch_normalization_bwd_t.init_ok d_type env pd = true →
          pd.fuse_norm_relu = true
          ∧ pd.paired_fwd_workspace ≠ (pd.init_default_ws 8).ws_md_
          ∧ (ncsp_batch_normalization_bwd_t.init d_type env pd).2.ws_md_
              = some (pd.default_ws 8))) := by
  constructor
  · intro h
    rw [fwd_init_unimplemented_frame d_type env pd h]
    exact ⟨rfl, rfl⟩
  · intro h
    cases hok : ncsp_batch_normalization_bwd_t.init_ok d_type env pd
    · simp [ncsp_batch_normalization_bwd_t.init, hok]
    · rw [bwd_init_eq_of_ok d_type env pd hok] at h ⊢
      cases hr : pd.fuse_norm_relu
      · rw [hr] at h
        simp at h
      · rw [hr] at h
        simp only [if_true] at h ⊢
        cases hc : (pd.init_default_ws 8).compare_ws
        · rw [compare_ws_init_default_ws] at hc
          simp only [decide_eq_false_iff_not] at hc
          simp only [Bool.false_eq_true, if_false]
          exact ⟨rfl, fun hf => absurd hf (by decide), fun _ => ⟨trivial, hc, rfl⟩⟩
        · rw [hc] at h
          simp at h

/-- C20: on a successful forward `init()` the workspace descriptor is the one
`init_default_ws(8)` builds, a byte tensor with 8 bits for each element, when
the descriptor is in training mode with fused activation, and is the one before
the call otherwise; starting without workspace, a workspace is present after the
call exactly in training mode with fused activation. -/
theorem fwd_init_success_workspace (d_type : data_type_t) (env : cpu_t) (pd : pd_t)
    (hsucc : (ncsp_batch_normalization_fwd_t.init d_type env pd).1 = status_t.success) :
    ((pd.is_training = true ∧ pd.fuse_norm_relu = true) →
      (ncsp_batch_normalization_fwd_t.init d_type env pd).2.ws_md_
          = (pd.init_default_ws 8).ws_md_
      ∧ (pd.init_default_ws 8).ws_md_ = some (pd.default_ws 8)
      ∧ (pd.default_ws 8).data_type = data_type_t.u8
      ∧ (pd.default_ws 8).dims = [nelems_padded pd.src_md])
    ∧ (¬ (pd.is_training = true ∧ pd.fuse_norm_relu = true) →
      (ncsp_batch_normalization_fwd_t.init d_type env pd).2.ws_md_ = pd.ws_md_)
    ∧ (pd.ws_md_ = none →
      ((ncsp_batch_normalization_fwd_t.init d_type env pd).2.ws_md_.isSome = true
        ↔ (pd.is_training = true ∧ pd.fuse_norm_relu = true))) := by
  have hok : ncsp_batch_normalization_fwd_t.init_ok d_type env pd = true := by
    cases hok : ncsp_batch_normalization_fwd_t.init_ok d_type env pd
    · simp [ncsp_batch_normalization_fwd_t.init, hok] at hsucc
    · rfl
  have hws : (ncsp_batch_normalization_fwd_t.init d_type env pd).2.ws_md_
      = if pd.is_training = true ∧ pd.fuse_norm_relu = true then some (pd.default_ws 8)
        else pd.ws_md_ := by
    cases ht : pd.is_training <;> cases hr : pd.fuse_norm_relu <;>
      simp [ncsp_batch_normalization_fwd_t.init, hok, ht, hr, fwd_init_scratchpad_ws,
        pd_t.init_default_ws]
  refine ⟨?_, ?_, ?_⟩
  · intro h
    refine ⟨?_, rfl, rfl, ?_⟩
    · rw [hws, if_pos h]; rfl
    · simp [pd_t.default_ws]
      omega
  · intro h
    rw [hws, if_neg h]
  · intro hnone
    rw [hws]
    by_cases h : pd.is_training = true ∧ pd.fuse_norm_relu = true
    · simp [h]
    · simp [h, hnone]

/-- C20 on forward training with fused activation, `2 x 64 x 7 x 7`: `init()`
succeeds and the workspace is a byte tensor of 6272 elements. -/
theorem fwd_init_success_workspace_witness :
    (ncsp_batch_normalization_fwd_t.init data_type_t.f32 sample.eight_threads
        sample.fwd_f32_training_fused).1 = status_t.success
    ∧ (ncsp_batch_normalization_fwd_t.init data_type_t.f32 sample.eight_threads
        sample.fwd_f32_training_fused).2.ws_md_
        = some (sample.plain_md data_type_t.u8 format_tag_t.x [6272]) :=
  ⟨by decide,
    ((fwd_init_success_workspace data_type_t.f32 sample.eight_threads
      sample.fwd_f32_training_fused (by decide)).1 ⟨rfl, rfl⟩).1.trans (by decide)⟩

end init_effects

/-! ## Inner product: consistency of the shape accessors -/

section ip_shape_consistency

/-- C21: when the direction-invariant source has a rank from 2 to 5 and its
extent array holds that many extents, `IC_total()` is
`IC() * ID() * IH() * IW()`; `ID()` is 1 for a rank below 5 and the extent of
axis `rank - 3` otherwise, `IH()` is 1 for a rank below 4 and the extent of axis
`rank - 2` otherwise, `IW()` is 1 for a rank below 3 and the extent of axis
`rank - 1` otherwise. -/
theorem IC_total_eq_IC_ID_IH_IW (pd : inner_product_pd_t)
    (hlo : 2 ≤ pd.ndims) (hhi : pd.ndims ≤ 5)
    (hlen : pd.ndims ≤ (ip_prop_invariant_src_d pd.desc_).dims.length) :
    pd.IC_total = pd.IC * pd.ID * pd.IH * pd.IW
    ∧ pd.ID = (if pd.ndims < 5 then 1
        else dims_at (ip_prop_invariant_src_d pd.desc_).dims (pd.ndims - 3))
    ∧ pd.IH = (if pd.ndims < 4 then 1
        else dims_at (ip_prop_invariant_src_d pd.desc_).dims (pd.ndims - 2))
    ∧ pd.IW = (if pd.ndims < 3 then 1
        else dims_at (ip_prop_invariant_src_d pd.desc_).dims (pd.ndims - 1)) := by
  refine ⟨?_, ?_, ?_, ?_⟩
  · have hsz := to_size_t_ndims_pred pd.ndims (by omega) (by omega)
    unfold inner_product_pd_t.IC_total inner_product_pd_t.IC inner_product_pd_t.ID
      inner_product_pd_t.IH inner_product_pd_t.IW
    rw [hsz, array_product_eq_prod]
    generalize hn : pd.ndims = n at hlo hhi hlen ⊢
    generalize (ip_prop_invariant_src_d pd.desc_).dims = l at hlen ⊢
    rcases l with _ | ⟨a, _ | ⟨b, l⟩⟩
    · simp at hlen; omega
    · simp at hlen; omega
    · interval_cases n
      · simp [dims_at]
      · rcases l with _ | ⟨c, l⟩
        · simp at hlen
        · simp [dims_at]
      · rcases l with _ | ⟨c, _ | ⟨d, l⟩⟩
        · simp at hlen
        · simp at hlen
        · simp [dims_at, Nat.mul_assoc]
      · rcases l with _ | ⟨c, _ | ⟨d, _ | ⟨e, l⟩⟩⟩
        · simp at hlen
        · simp at hlen
        · simp at hlen
        · simp [dims_at, Nat.mul_assoc]
  · unfold inner_product_pd_t.ID
    by_cases h : pd.ndims < 5
    · rw [if_pos h, if_neg (by omega)]
    · rw [if_neg h, if_pos (by omega)]
  · unfold inner_product_pd_t.IH
    by_cases h : pd.ndims < 4
    · rw [if_pos h, if_neg (by omega)]
    · rw [if_neg h, if_pos (by omega)]
  · unfold inner_product_pd_t.IW
    by_cases h : pd.ndims < 3
    · rw [if_pos h, if_neg (by omega)]
    · rw [if_neg h, if_pos (by omega)]

/-- C21 on the sample source `2 x 16 x 3 x 3` of rank 4: `IC_total()` is 144,
the product of `IC() = 16`, `ID() = 1`, `IH() = 3` and `IW() = 3`. -/
theorem IC_total_eq_IC_ID_IH_IW_witness :
    (sample.ip_fwd_padded format_kind_t.blocked).ndims = 4
    ∧ (sample.ip_fwd_padded format_kind_t.blocked).IC_total = 144
    ∧ (sample.ip_fwd_padded format_kind_t.blocked).IC = 16
    ∧ (sample.ip_fwd_padded format_kind_t.blocked).ID = 1
    ∧ (sample.ip_fwd_padded format_kind_t.blocked).IH = 3
    ∧ (sample.ip_fwd_padded format_kind_t.blocked).IW = 3 :=
  ⟨rfl,
    (IC_total_eq_IC_ID_IH_IW (sample.ip_fwd_padded format_kind_t.blocked).toinner_product_pd_t
      (by decide) (by decide) (by decide)).1.trans (by decide),
    by decide, by decide, by decide, by decide⟩

end ip_shape_consistency

end impl
end dnnl
